import Mathlib

/-!
Verification development for the control-plane event-to-artifact synthesizer
(apim-apk-agent management server and eventhub mirror store).

The Go sources are shallowly embedded:
* Go maps built as `map[string]interface{}` become the `YVal` tree with
  association-list objects (`Fields`); Go `delete`/assignment become
  `removeF`/`setF`.
* Go slices become Lean lists with value semantics.
* External collaborators (the YAML/JSON codecs, the regexp engine, the import
  client) are abstracted as function parameters, mirroring the narrow contracts
  through which the source consumes them.
* `uuid.New()` is modelled by an explicit identifier supply `gen : Nat → String`
  consumed in call order, making the randomness of each run an explicit input.
-/

namespace Agent

/-- `{` written without a brace character literal. -/
def lbrace : Char := Char.ofNat 123

/-- `}` written without a brace character literal. -/
def rbrace : Char := Char.ofNat 125

/-- Embeds Go `strings.HasSuffix`. -/
def goHasSuffix (s suf : String) : Bool :=
  suf.toList.isSuffixOf s.toList

/-- Embeds Go `strings.TrimSuffix`: drops `suf` from the end of `s` when it is
a suffix, otherwise returns `s` unchanged. -/
def goTrimSuffix (s suf : String) : String :=
  if suf.toList.isSuffixOf s.toList then
    String.mk (s.toList.take (s.toList.length - suf.toList.length))
  else s

/-- Embeds `removeVersionSuffix` (rest_server.go:1050-1055): if the base path
ends with the version, trim the `"/" + version` suffix, else keep it. -/
def removeVersionSuffix (str1 str2 : String) : String :=
  if goHasSuffix str1 str2 then goTrimSuffix str1 ("/" ++ str2) else str1

/-- Embeds Go `strings.EqualFold` restricted to the ASCII data of this
subsystem (HTTP verbs, API types): case-insensitive equality. -/
def eqFold (a b : String) : Bool :=
  a.toList.map Char.toLower == b.toList.map Char.toLower

/-- Embeds Go `strings.ToUpper` for the ASCII data of this subsystem. -/
def goToUpper (s : String) : String :=
  String.mk (s.toList.map Char.toUpper)


/-! ## Entity mirror store (eventhub marshaling) -/

/-- Control-plane `types.Application` as consumed by `MarshalApplication`. -/
structure CPApplication where
  uuid : String
  id : Int
  name : String
  subName : String
  policy : String
  tokenType : String
  attributes : List (String × String)
  tenantID : Int
  tenantDomain : String
  timeStamp : Int
deriving DecidableEq

/-- Mirrored `Application` entity (eventhub marshal_and_store). -/
structure Application where
  uuid : String
  id : Int
  name : String
  subName : String
  policy : String
  tokenType : String
  attributes : List (String × String)
  tenantID : Int
  tenantDomain : String
  timeStamp : Int
deriving DecidableEq

/-- Control-plane `types.Subscription` as consumed by `MarshalSubscription`. -/
structure CPSubscription where
  subscriptionID : Int
  subscriptionUUID : String
  policyID : String
  apiID : Int
  apiUUID : String
  appID : Int
  applicationUUID : String
  subscriptionState : String
  tenantID : Int
  tenantDomain : String
  timeStamp : Int
deriving DecidableEq

/-- Mirrored `Subscription` entity. -/
structure Subscription where
  subscriptionID : Int
  subscriptionUUID : String
  policyID : String
  apiID : Int
  apiUUID : String
  appID : Int
  applicationUUID : String
  subscriptionState : String
  tenantID : Int
  tenantDomain : String
  timeStamp : Int
deriving DecidableEq

/-- Control-plane `types.ApplicationKeyMapping`. -/
structure CPApplicationKeyMapping where
  applicationID : Int
  applicationUUID : String
  consumerKey : String
  keyType : String
  keyManager : String
  tenantID : Int
  tenantDomain : String
  timeStamp : Int
deriving DecidableEq

/-- Mirrored `ApplicationKeyMapping` entity. -/
structure ApplicationKeyMapping where
  applicationID : Int
  applicationUUID : String
  consumerKey : String
  keyType : String
  keyManager : String
  tenantID : Int
  tenantDomain : String
  timeStamp : Int
deriving DecidableEq

/-- Embeds `MarshalApplication` (marshal_and_store):
field-by-field copy, backfilling an empty tenant domain with the
process-wide control-plane connected tenant domain `ctd`. -/
def MarshalApplication (ctd : String) (appInternal : CPApplication) : Application :=
  let app : Application :=
    { uuid := appInternal.uuid
      id := appInternal.id
      name := appInternal.name
      subName := appInternal.subName
      policy := appInternal.policy
      tokenType := appInternal.tokenType
      attributes := appInternal.attributes
      tenantID := appInternal.tenantID
      tenantDomain := appInternal.tenantDomain
      timeStamp := appInternal.timeStamp }
  if app.tenantDomain = "" then { app with tenantDomain := ctd } else app

/-- Embeds `MarshalSubscription`: field-by-field copy with
tenant-domain backfill from `ctd`. -/
def MarshalSubscription (ctd : String) (subscriptionInternal : CPSubscription) : Subscription :=
  let sub : Subscription :=
    { subscriptionID := subscriptionInternal.subscriptionID
      policyID := subscriptionInternal.policyID
      apiID := subscriptionInternal.apiID
      appID := subscriptionInternal.appID
      subscriptionState := subscriptionInternal.subscriptionState
      timeStamp := subscriptionInternal.timeStamp
      tenantID := subscriptionInternal.tenantID
      tenantDomain := subscriptionInternal.tenantDomain
      subscriptionUUID := subscriptionInternal.subscriptionUUID
      apiUUID := subscriptionInternal.apiUUID
      applicationUUID := subscriptionInternal.applicationUUID }
  if sub.tenantDomain = "" then { sub with tenantDomain := ctd } else sub

/-- Embeds `marshalKeyMapping`: field-by-field copy.  Note that the source
performs no tenant-domain backfill here, unlike the application and
subscription marshalers. -/
def marshalKeyMapping (keyMappingInternal : CPApplicationKeyMapping) : ApplicationKeyMapping :=
  { consumerKey := keyMappingInternal.consumerKey
    keyType := keyMappingInternal.keyType
    keyManager := keyMappingInternal.keyManager
    applicationID := keyMappingInternal.applicationID
    applicationUUID := keyMappingInternal.applicationUUID
    tenantID := keyMappingInternal.tenantID
    tenantDomain := keyMappingInternal.tenantDomain
    timeStamp := keyMappingInternal.timeStamp }

/-- Embeds `GetApplicationKeyMappingReference`: `consumerKey:keyManager`. -/
def GetApplicationKeyMappingReference (keyMapping : CPApplicationKeyMapping) : String :=
  keyMapping.consumerKey ++ ":" ++ keyMapping.keyManager

/-- Go map assignment `m[k] = v` on an association list: replace the binding
if the key is present, otherwise append it. -/
def mapSet {α : Type} : List (String × α) → String → α → List (String × α)
  | [], k, v => [(k, v)]
  | (k', v') :: rest, k, v =>
    if k' = k then (k, v) :: rest else (k', v') :: mapSet rest k v

/-- Go map read `m[k]` on an association list. -/
def mapGet {α : Type} : List (String × α) → String → Option α
  | [], _ => none
  | (k', v') :: rest, k => if k' = k then some v' else mapGet rest k

/-- Embeds `MarshalMultipleApplications`: builds a fresh map from the snapshot
list (keyed by UUID) and stores it as the new `ApplicationMap`. -/
def MarshalMultipleApplications (ctd : String) (appList : List CPApplication) :
    List (String × Application) :=
  appList.foldl (fun resourceMap application =>
    mapSet resourceMap application.uuid (MarshalApplication ctd application)) []

/-- The whole-map replacement performed by the applications snapshot pull:
`ApplicationMap = resourceMap` discards the previous mirror entirely. -/
def applyReplaceApplications (_oldStore : List (String × Application)) (ctd : String)
    (appList : List CPApplication) : List (String × Application) :=
  MarshalMultipleApplications ctd appList

/-- Embeds `MarshalMultipleApplicationKeyMappings`: fresh map keyed by the
`consumerKey:keyManager` reference. -/
def MarshalMultipleApplicationKeyMappings (keymappingList : List CPApplicationKeyMapping) :
    List (String × ApplicationKeyMapping) :=
  keymappingList.foldl (fun resourceMap keyMapping =>
    mapSet resourceMap (GetApplicationKeyMappingReference keyMapping)
      (marshalKeyMapping keyMapping)) []

theorem mapGet_mapSet_self {α : Type} (m : List (String × α)) (k : String) (v : α) :
    mapGet (mapSet m k v) k = some v := by
  induction m with
  | nil => simp [mapSet, mapGet]
  | cons hd tl ih =>
    obtain ⟨k', v'⟩ := hd
    by_cases h : k' = k
    · simp [mapSet, mapGet, h]
    · simp [mapSet, mapGet, h, ih]

theorem mapGet_mapSet_ne {α : Type} (m : List (String × α)) {k k' : String} (v : α)
    (h : k' ≠ k) : mapGet (mapSet m k v) k' = mapGet m k' := by
  induction m with
  | nil => simp [mapSet, mapGet, Ne.symm h]
  | cons hd tl ih =>
    obtain ⟨k₀, v₀⟩ := hd
    by_cases h0 : k₀ = k
    · subst h0
      have hk : k₀ ≠ k' := Ne.symm h
      simp [mapSet, mapGet, hk]
    · simp only [mapSet, if_neg h0, mapGet]
      by_cases h1 : k₀ = k'
      · simp [h1]
      · simp [h1, ih]

theorem mapGet_foldl_mapSet {α β : Type} (key : β → String) (val : β → α) :
    ∀ (l : List β) (acc : List (String × α)) (k : String),
      mapGet (l.foldl (fun m a => mapSet m (key a) (val a)) acc) k =
        ((l.reverse.find? (fun a => key a == k)).map val).orElse (fun _ => mapGet acc k) := by
  intro l
  induction l with
  | nil => intro acc k; simp
  | cons a tl ih =>
    intro acc k
    simp only [List.foldl_cons, List.reverse_cons, List.find?_append]
    rw [ih]
    cases hfind : tl.reverse.find? (fun b => key b == k) with
    | some b => simp [Option.orElse]
    | none =>
      by_cases hk : key a = k
      · have hb : (key a == k) = true := by simp [hk]
        simp [Option.orElse, List.find?, hb, hk, mapGet_mapSet_self]
      · have hb : (key a == k) = false := by simp [hk]
        simp [Option.orElse, List.find?, hb, mapGet_mapSet_ne _ _ (Ne.symm hk)]

theorem mapGet_MarshalMultipleApplications (ctd : String) (l : List CPApplication) (k : String) :
    mapGet (MarshalMultipleApplications ctd l) k =
      (l.reverse.find? (fun a => a.uuid == k)).map (MarshalApplication ctd) := by
  unfold MarshalMultipleApplications
  rw [mapGet_foldl_mapSet (fun a : CPApplication => a.uuid) (MarshalApplication ctd) l [] k]
  cases l.reverse.find? (fun a => a.uuid == k) <;> simp [Option.orElse, mapGet]

/-- Fixture: a control-plane application with an empty tenant domain. -/
def cpAppW : CPApplication :=
  { uuid := "u1", id := 1, name := "app", subName := "sub1", policy := "p",
    tokenType := "JWT", attributes := [], tenantID := 0, tenantDomain := "", timeStamp := 7 }

/-- Fixture: a control-plane subscription with an empty tenant domain. -/
def cpSubW : CPSubscription :=
  { subscriptionID := 4, subscriptionUUID := "s1", policyID := "pol", apiID := 9,
    apiUUID := "a1", appID := 1, applicationUUID := "u1", subscriptionState := "ACTIVE",
    tenantID := 0, tenantDomain := "", timeStamp := 7 }

/-- Fixture: a control-plane key mapping with an empty tenant domain. -/
def cpKmW : CPApplicationKeyMapping :=
  { applicationID := 1, applicationUUID := "u1", consumerKey := "ck1", keyType := "PRODUCTION",
    keyManager := "resident", tenantID := 0, tenantDomain := "", timeStamp := 7 }

/-- Fixture: a stale mirrored application from a previous snapshot. -/
def staleAppW : Application :=
  { uuid := "stale", id := 2, name := "old", subName := "sub0", policy := "p",
    tokenType := "JWT", attributes := [], tenantID := 0, tenantDomain := "t0", timeStamp := 1 }

/-- C8: for every snapshot payload, the applications-replace operation yields a
mirror that is independent of the previous store (whole-map replace, not
merge), contains exactly the applications of the new snapshot keyed by their
UUID, and every stored value is the marshaled form of a snapshot entry. -/
theorem c8_replace_applications_whole_map (ctd : String)
    (old1 old2 : List (String × Application)) (l : List CPApplication) :
    applyReplaceApplications old1 ctd l = applyReplaceApplications old2 ctd l ∧
    (∀ k, (mapGet (applyReplaceApplications old1 ctd l) k).isSome ↔
      k ∈ l.map (fun a => a.uuid)) ∧
    (∀ k v, mapGet (applyReplaceApplications old1 ctd l) k = some v →
      ∃ a ∈ l, a.uuid = k ∧ v = MarshalApplication ctd a) := by
  refine ⟨rfl, ?_, ?_⟩
  · intro k
    rw [show applyReplaceApplications old1 ctd l = MarshalMultipleApplications ctd l from rfl,
      mapGet_MarshalMultipleApplications]
    constructor
    · intro hs
      cases hf : l.reverse.find? (fun a => a.uuid == k) with
      | none => rw [hf] at hs; simp at hs
      | some a =>
        have ha := List.mem_of_find?_eq_some hf
        have hp := List.find?_some hf
        exact List.mem_map.mpr ⟨a, List.mem_reverse.mp ha, by simpa [beq_iff_eq] using hp⟩
    · intro hk
      rcases List.mem_map.mp hk with ⟨a, hal, hae⟩
      cases hf : l.reverse.find? (fun b => b.uuid == k) with
      | some b => simp
      | none =>
        exfalso
        have hnone := List.find?_eq_none.mp hf a (List.mem_reverse.mpr hal)
        simp only [beq_iff_eq] at hnone
        exact hnone hae
  · intro k v h
    rw [show applyReplaceApplications old1 ctd l = MarshalMultipleApplications ctd l from rfl,
      mapGet_MarshalMultipleApplications] at h
    cases hf : l.reverse.find? (fun a => a.uuid == k) with
    | none => rw [hf] at h; exact absurd h (by simp)
    | some a =>
      rw [hf] at h
      simp only [Option.map_some'] at h
      refine ⟨a, List.mem_reverse.mp (List.mem_of_find?_eq_some hf), ?_,
        (Option.some.inj h).symm⟩
      have hp := List.find?_some hf
      simpa [beq_iff_eq] using hp

/-- Witness for `c8_replace_applications_whole_map` at a concrete snapshot. -/
theorem c8_replace_applications_whole_map_witness :
    ∃ a ∈ [cpAppW], a.uuid = "u1" ∧
      MarshalApplication "carbon.super" cpAppW = MarshalApplication "carbon.super" a :=
  (c8_replace_applications_whole_map "carbon.super" [("stale", staleAppW)] [] [cpAppW]).2.2
    "u1" (MarshalApplication "carbon.super" cpAppW) (by decide)

/-- C4 counterexample: a key mapping ingested with an empty tenant domain is
stored with an empty tenant domain rather than the connected tenant domain
(`"carbon.super"` in this run): `marshalKeyMapping` performs no backfill. -/
theorem c4_counterexample :
    (mapGet (MarshalMultipleApplicationKeyMappings [cpKmW]) "ck1:resident").map
        (fun m => m.tenantDomain) = some "" ∧ ("" : String) ≠ "carbon.super" := by
  constructor
  · rfl
  · decide

/-- C4 amended: during full-snapshot ingestion the tenant-domain backfill is
applied to Application and Subscription entities whose tenant domain is empty,
while ApplicationKeyMapping entities keep their tenant domain unchanged. -/
theorem c4_amended_tenant_backfill (ctd : String) (app : CPApplication)
    (sub : CPSubscription) (km : CPApplicationKeyMapping) :
    (app.tenantDomain = "" → (MarshalApplication ctd app).tenantDomain = ctd) ∧
    (sub.tenantDomain = "" → (MarshalSubscription ctd sub).tenantDomain = ctd) ∧
    (marshalKeyMapping km).tenantDomain = km.tenantDomain := by
  refine ⟨?_, ?_, rfl⟩
  · intro h; simp [MarshalApplication, h]
  · intro h; simp [MarshalSubscription, h]

/-- Witness for `c4_amended_tenant_backfill` at a concrete snapshot entry. -/
theorem c4_amended_tenant_backfill_witness :
    (MarshalApplication "carbon.super" cpAppW).tenantDomain = "carbon.super" :=
  (c4_amended_tenant_backfill "carbon.super" cpAppW cpSubW cpKmW).1 rfl

/-! ## Path-template normalization (`processOpenAPIPath`, rest_server.go:1080-1083)

The Go code replaces every occurrence of the regular expression
`lbrace [^rbrace]+ rbrace` by the literal `hardcode` (leftmost-first,
the closing brace being the first one after the opening brace). -/

/-- The characters of the fixed replacement token `"hardcode"`. -/
def hardcodeChars : List Char := "hardcode".toList

/-- Scans for the first closing brace: returns the characters before it and
the remainder after it, or `none` when no closing brace occurs. -/
def takeToRBrace : List Char → Option (List Char × List Char)
  | [] => none
  | c :: rest =>
    if c = rbrace then some ([], rest)
    else (takeToRBrace rest).map (fun p => (c :: p.1, p.2))

theorem takeToRBrace_length :
    ∀ {l b a : List Char}, takeToRBrace l = some (b, a) → a.length < l.length := by
  intro l
  induction l with
  | nil => intro b a h; simp [takeToRBrace] at h
  | cons c rest ih =>
    intro b a h
    by_cases hc : c = rbrace
    · simp only [takeToRBrace, if_pos hc, Option.some.injEq, Prod.mk.injEq] at h
      simp [← h.2]
    · simp only [takeToRBrace, if_neg hc] at h
      cases hr : takeToRBrace rest with
      | none => rw [hr] at h; simp at h
      | some p =>
        rw [hr] at h
        simp only [Option.map_some', Option.some.injEq, Prod.mk.injEq] at h
        have hlen := ih (b := p.1) (a := p.2) (by rw [hr])
        rw [← h.2]
        simp only [List.length_cons]
        omega

theorem takeToRBrace_decomp :
    ∀ {l b a : List Char}, takeToRBrace l = some (b, a) → l = b ++ rbrace :: a ∧ rbrace ∉ b := by
  intro l
  induction l with
  | nil => intro b a h; simp [takeToRBrace] at h
  | cons c rest ih =>
    intro b a h
    by_cases hc : c = rbrace
    · simp only [takeToRBrace, if_pos hc, Option.some.injEq, Prod.mk.injEq] at h
      subst hc
      simp [← h.1, ← h.2]
    · simp only [takeToRBrace, if_neg hc] at h
      cases hr : takeToRBrace rest with
      | none => rw [hr] at h; simp at h
      | some p =>
        rw [hr] at h
        simp only [Option.map_some', Option.some.injEq, Prod.mk.injEq] at h
        obtain ⟨hd, hm⟩ := ih (b := p.1) (a := p.2) (by rw [hr])
        constructor
        · rw [← h.1, ← h.2]
          simp [hd]
        · rw [← h.1]
          intro hmem
          rcases List.mem_cons.mp hmem with h1 | h1
          · exact hc h1.symm
          · exact hm h1

theorem takeToRBrace_append (b : List Char) (hb : rbrace ∉ b) (a : List Char) :
    takeToRBrace (b ++ rbrace :: a) = some (b, a) := by
  induction b with
  | nil => simp [takeToRBrace]
  | cons c rest ih =>
    have hc : c ≠ rbrace := fun h => hb (h ▸ List.mem_cons_self c rest)
    have hrest : rbrace ∉ rest := fun h => hb (List.mem_cons_of_mem c h)
    simp [takeToRBrace, hc, ih hrest]

theorem takeToRBrace_eq_none {l : List Char} (h : rbrace ∉ l) : takeToRBrace l = none := by
  induction l with
  | nil => rfl
  | cons c rest ih =>
    have hc : c ≠ rbrace := fun hh => h (hh ▸ List.mem_cons_self c rest)
    have hrest : rbrace ∉ rest := fun hh => h (List.mem_cons_of_mem c hh)
    simp [takeToRBrace, hc, ih hrest]

/-- Embeds the replacement loop of Go `regexp.ReplaceAllString` for the
pattern used by `processOpenAPIPath`: at each opening brace followed by a
non-empty brace-free run and a closing brace, emit `hardcode` and continue
after the closing brace; otherwise copy the character. -/
def replaceBraces : List Char → List Char
  | [] => []
  | c :: rest =>
    if c = lbrace then
      match h : takeToRBrace rest with
      | some (b, a) =>
        if b = [] then c :: replaceBraces rest
        else hardcodeChars ++ replaceBraces a
      | none => c :: replaceBraces rest
    else c :: replaceBraces rest
termination_by l => l.length
decreasing_by
  · simp
  · have := takeToRBrace_length h
    simp only [List.length_cons]
    omega
  · simp
  · simp

theorem replaceBraces_nil : replaceBraces [] = [] := by
  rw [replaceBraces.eq_def]

theorem replaceBraces_cons_ne (c : Char) (rest : List Char) (hc : c ≠ lbrace) :
    replaceBraces (c :: rest) = c :: replaceBraces rest := by
  rw [replaceBraces.eq_def]
  simp only [if_neg hc]

theorem replaceBraces_cons_none (rest : List Char) (h : takeToRBrace rest = none) :
    replaceBraces (lbrace :: rest) = lbrace :: replaceBraces rest := by
  rw [replaceBraces.eq_def]
  simp only [↓reduceIte]
  split
  · rename_i b a heq
    rw [h] at heq
    cases heq
  · rfl

theorem replaceBraces_cons_gap0 (rest a : List Char) (h : takeToRBrace rest = some ([], a)) :
    replaceBraces (lbrace :: rest) = lbrace :: replaceBraces rest := by
  rw [replaceBraces.eq_def]
  simp only [↓reduceIte]
  split
  · rename_i b a' heq
    rw [h] at heq
    cases heq
    simp
  · rename_i heq
    rw [h] at heq

theorem replaceBraces_cons_hit (rest b a : List Char) (h : takeToRBrace rest = some (b, a))
    (hb : b ≠ []) : replaceBraces (lbrace :: rest) = hardcodeChars ++ replaceBraces a := by
  rw [replaceBraces.eq_def]
  simp only [↓reduceIte]
  split
  · rename_i b' a' heq
    rw [h] at heq
    cases heq
    rw [if_neg hb]
  · rename_i heq
    rw [h] at heq
    cases heq

theorem not_mem_of_takeToRBrace_eq_none :
    ∀ {l : List Char}, takeToRBrace l = none → rbrace ∉ l := by
  intro l
  induction l with
  | nil => intro _; simp
  | cons c rest ih =>
    intro h
    by_cases hc : c = rbrace
    · simp [takeToRBrace, hc] at h
    · simp only [takeToRBrace, if_neg hc, Option.map_eq_none'] at h
      intro hmem
      rcases List.mem_cons.mp hmem with h1 | h1
      · exact hc h1.symm
      · exact ih h h1

theorem replaceBraces_no_rbrace : ∀ l : List Char, rbrace ∉ l → replaceBraces l = l := by
  intro l
  induction l with
  | nil => intro _; exact replaceBraces_nil
  | cons c rest ih =>
    intro h
    have hrest : rbrace ∉ rest := fun hh => h (List.mem_cons_of_mem c hh)
    by_cases hc : c = lbrace
    · subst hc
      rw [replaceBraces_cons_none rest (takeToRBrace_eq_none hrest), ih hrest]
    · rw [replaceBraces_cons_ne c rest hc, ih hrest]

theorem replaceBraces_append_no_lbrace :
    ∀ xs ys : List Char, lbrace ∉ xs → replaceBraces (xs ++ ys) = xs ++ replaceBraces ys := by
  intro xs
  induction xs with
  | nil => intro ys _; rfl
  | cons c rest ih =>
    intro ys h
    have hc : c ≠ lbrace := fun hh => h (hh ▸ List.mem_cons_self c rest)
    have hrest : lbrace ∉ rest := fun hh => h (List.mem_cons_of_mem c hh)
    rw [List.cons_append, replaceBraces_cons_ne c (rest ++ ys) hc, ih ys hrest]
    rfl

theorem lbrace_ne_rbrace : lbrace ≠ rbrace := by decide

theorem lbrace_not_mem_hardcode : lbrace ∉ hardcodeChars := by decide

/-- Normalization is idempotent: a second pass over an already-normalized
path changes nothing. -/
theorem replaceBraces_idem :
    ∀ l : List Char, replaceBraces (replaceBraces l) = replaceBraces l := by
  intro l
  induction l using replaceBraces.induct with
  | case1 => simp only [replaceBraces_nil]
  | case2 rest a h ih =>
    rw [replaceBraces_cons_gap0 rest a h]
    have hdecomp := (takeToRBrace_decomp h).1
    simp only [List.nil_append] at hdecomp
    have hrw : replaceBraces rest = rbrace :: replaceBraces a := by
      rw [hdecomp, replaceBraces_cons_ne rbrace a (Ne.symm lbrace_ne_rbrace)]
    rw [hrw]
    rw [replaceBraces_cons_gap0 (rbrace :: replaceBraces a) (replaceBraces a)
      (by simp [takeToRBrace])]
    rw [replaceBraces_cons_ne rbrace (replaceBraces a) (Ne.symm lbrace_ne_rbrace)]
    have ha : replaceBraces (replaceBraces a) = replaceBraces a := by
      rw [hrw, replaceBraces_cons_ne rbrace (replaceBraces a) (Ne.symm lbrace_ne_rbrace)] at ih
      simp only [List.cons.injEq] at ih
      exact ih.2
    rw [ha]
  | case3 rest b a htake hne ih =>
    rw [replaceBraces_cons_hit rest b a htake hne]
    rw [replaceBraces_append_no_lbrace hardcodeChars (replaceBraces a) lbrace_not_mem_hardcode]
    rw [ih]
  | case4 rest h _ih =>
    have hrest : rbrace ∉ rest := not_mem_of_takeToRBrace_eq_none h
    rw [replaceBraces_cons_none rest h, replaceBraces_no_rbrace rest hrest,
      replaceBraces_cons_none rest h, replaceBraces_no_rbrace rest hrest]
  | case5 c rest hc ih =>
    rw [replaceBraces_cons_ne c rest hc,
      replaceBraces_cons_ne c (replaceBraces rest) hc, ih]

/-- Embeds `processOpenAPIPath` (rest_server.go:1080-1083): every brace-
delimited placeholder segment is replaced by the fixed token `hardcode`. -/
def processOpenAPIPath (path : String) : String :=
  String.mk (replaceBraces path.toList)

theorem processOpenAPIPath_idem (path : String) :
    processOpenAPIPath (processOpenAPIPath path) = processOpenAPIPath path :=
  congrArg String.mk (replaceBraces_idem path.toList)

/-- A path template piece: either literal text or a brace-delimited
placeholder with a parameter name. -/
inductive PathSeg where
  | lit : String → PathSeg
  | param : String → PathSeg
deriving DecidableEq

/-- Renders a template into the concrete schema path text. -/
def renderSegChars : PathSeg → List Char
  | .lit s => s.toList
  | .param n => lbrace :: (n.toList ++ [rbrace])

def renderPathChars : List PathSeg → List Char
  | [] => []
  | sg :: rest => renderSegChars sg ++ renderPathChars rest

/-- The expected normalization: placeholders become the fixed token,
independently of their parameter names. -/
def renderNormChars : List PathSeg → List Char
  | [] => []
  | .lit s :: rest => s.toList ++ renderNormChars rest
  | .param _ :: rest => hardcodeChars ++ renderNormChars rest

/-- Well-formedness of a template piece: literal text holds no opening brace,
and a parameter name is non-empty and holds no closing brace. -/
def SegWF : PathSeg → Prop
  | .lit s => lbrace ∉ s.toList
  | .param n => n.toList ≠ [] ∧ rbrace ∉ n.toList

instance (sg : PathSeg) : Decidable (SegWF sg) :=
  match sg with
  | .lit s => inferInstanceAs (Decidable (lbrace ∉ s.toList))
  | .param n => inferInstanceAs (Decidable (n.toList ≠ [] ∧ rbrace ∉ n.toList))

theorem replaceBraces_renderPath :
    ∀ segs : List PathSeg, (∀ sg ∈ segs, SegWF sg) →
      replaceBraces (renderPathChars segs) = renderNormChars segs := by
  intro segs
  induction segs with
  | nil => intro _; exact replaceBraces_nil
  | cons sg rest ih =>
    intro h
    have hrest : ∀ x ∈ rest, SegWF x := fun x hx => h x (List.mem_cons_of_mem _ hx)
    cases sg with
    | lit s =>
      have hs : lbrace ∉ s.toList := h _ (List.mem_cons_self _ _)
      rw [show renderPathChars (PathSeg.lit s :: rest) = s.toList ++ renderPathChars rest from rfl]
      rw [replaceBraces_append_no_lbrace _ _ hs, ih hrest]
      rfl
    | param n =>
      obtain ⟨hne, hnr⟩ := h _ (List.mem_cons_self _ _)
      have hshape : renderPathChars (PathSeg.param n :: rest) =
          lbrace :: (n.toList ++ rbrace :: renderPathChars rest) := by
        simp [renderPathChars, renderSegChars]
      rw [hshape]
      rw [replaceBraces_cons_hit (n.toList ++ rbrace :: renderPathChars rest) n.toList
        (renderPathChars rest) (takeToRBrace_append n.toList hnr (renderPathChars rest)) hne]
      rw [ih hrest]
      rfl

/-! ## Declared operations, filters and matching -/

/-- One header name/value pair of an `APKHeaders` filter. -/
structure APKHeaderEntry where
  name : String
  value : String
deriving DecidableEq

/-- The request- or response-direction half of an `APKHeaders` filter. -/
structure APKHeaderMutation where
  addHeaders : List APKHeaderEntry
  removeHeaders : List String
deriving DecidableEq

/-- The closed set of per-operation filter shapes consumed by
`extractOperations` (`APKHeaders`, `APKMirrorRequest`, `APKRedirectRequest`). -/
inductive APKOperationFilter where
  | headers (requestHeaders responseHeaders : APKHeaderMutation)
  | mirrorRequest (urls : List String)
  | redirectRequest (url : String)
deriving DecidableEq

/-- One AI-routing model weight (`AIModelWeight`). -/
structure AIModelWeight where
  model : String
  endpoint : String
  weight : Int
deriving DecidableEq

/-- `AIModelBasedRoundRobin` descriptor of the upstream event. -/
structure AIModelBasedRoundRobin where
  productionModels : List AIModelWeight
  sandboxModels : List AIModelWeight
  onQuotaExceedSuspendDuration : Int
deriving DecidableEq

/-- A declared operation sent by the data plane (`OperationFromDP`). -/
structure OperationFromDP where
  path : String
  verb : String
  scopes : List String
  filters : List APKOperationFilter
  aiModelBasedRoundRobin : Option AIModelBasedRoundRobin
deriving DecidableEq

/-- Embeds `findMatchingAPKOperation` (rest_server.go:1038-1048), including
the in-place normalization of the schema path on the first verb match; the
regexp engine is abstracted as `matchRegex`. -/
def findMatchingAPKOperation (matchRegex : String → String → Bool) :
    String → String → List OperationFromDP → Option OperationFromDP
  | _, _, [] => none
  | path, verb, operationFromDP :: rest =>
    if eqFold operationFromDP.verb verb then
      let path2 := processOpenAPIPath path
      if matchRegex operationFromDP.path path2 then some operationFromDP
      else findMatchingAPKOperation matchRegex path2 verb rest
    else findMatchingAPKOperation matchRegex path verb rest

/-- The matcher returns the first declared operation (in declaration order)
whose verb matches case-insensitively and whose path-as-regex matches the
normalized schema path. -/
theorem findMatchingAPKOperation_eq_find (matchRegex : String → String → Bool)
    (verb : String) :
    ∀ (ops : List OperationFromDP) (path : String),
      findMatchingAPKOperation matchRegex path verb ops =
        ops.find? (fun op => eqFold op.verb verb &&
          matchRegex op.path (processOpenAPIPath path)) := by
  intro ops
  induction ops with
  | nil => intro path; rfl
  | cons op rest ih =>
    intro path
    by_cases hv : eqFold op.verb verb
    · by_cases hm : matchRegex op.path (processOpenAPIPath path)
      · simp [findMatchingAPKOperation, List.find?, hv, hm]
      · simp only [findMatchingAPKOperation, hv, if_true, hm, if_false]
        rw [ih (processOpenAPIPath path), processOpenAPIPath_idem]
        simp [List.find?, hv, hm]
    · simp only [findMatchingAPKOperation, hv, if_false]
      rw [ih path]
      simp [List.find?, hv]

/-- C7: for every REST event and (path, verb) pair of the parsed document,
the matched declared operation is the first in declaration order whose verb
matches case-insensitively and whose path, treated as a regular expression,
matches the schema path after normalization; and normalization replaces every
brace-delimited placeholder segment with the same fixed literal token
`hardcode` regardless of the parameter name. -/
theorem c7_operation_matching :
    (∀ (matchRegex : String → String → Bool) (path verb : String)
       (ops : List OperationFromDP),
       findMatchingAPKOperation matchRegex path verb ops =
         ops.find? (fun op => eqFold op.verb verb &&
           matchRegex op.path (processOpenAPIPath path))) ∧
    (∀ segs : List PathSeg, (∀ sg ∈ segs, SegWF sg) →
       processOpenAPIPath (String.mk (renderPathChars segs)) =
         String.mk (renderNormChars segs)) :=
  ⟨fun matchRegex path verb ops => findMatchingAPKOperation_eq_find matchRegex verb ops path,
   fun segs h => congrArg String.mk (replaceBraces_renderPath segs h)⟩

/-- Witness for `c7_operation_matching` on the template `/pets/(petId)/img`
written with braces: both placeholder spellings normalize to the same text. -/
theorem c7_operation_matching_witness :
    processOpenAPIPath "/pets/\x7bpetId\x7d/img" = "/pets/hardcode/img" :=
  c7_operation_matching.2
    [PathSeg.lit "/pets/", PathSeg.param "petId", PathSeg.lit "/img"] (by decide)

/-! ## Operation policies (Policy Builder)

The policy-name constants live in `internal/constants`, outside the excerpt.
Modelled from the spec: each filter shape maps to a named, versioned policy;
only the identity of the names matters, so they are fixed distinct strings. -/

/-- Modelled from the spec: `constants.AddHeader`. -/
def constantsAddHeader : String := "addHeader"

/-- Modelled from the spec: `constants.RemoveHeader`. -/
def constantsRemoveHeader : String := "removeHeader"

/-- Modelled from the spec: `constants.MirrorRequest`. -/
def constantsMirrorRequest : String := "mirrorRequest"

/-- Modelled from the spec: `constants.RedirectRequest`. -/
def constantsRedirectRequest : String := "redirectRequest"

/-- Modelled from the spec: `constants.ModelWeightedRoundRobin`. -/
def constantsModelWeightedRoundRobin : String := "modelWeightedRoundRobin"

/-- Modelled from the spec: `constants.V1`. -/
def constantsV1 : String := "v1"

/-- Modelled from the spec: `constants.CommonType`. -/
def constantsCommonType : String := "common"

/-- `ModelConfig` (rest_server.go:769-773). -/
structure ModelConfig where
  model : String
  endpointId : String
  weight : Int
deriving DecidableEq

/-- The closed set of `FilterParameters` shapes attached to an
`OperationPolicy` (rest_server.go:754-802).  The redirect policy of the
source carries its URL in a `MirrorRequest` value, which is mirrored here by
reusing the `mirror` shape. -/
inductive FilterParameters where
  | weightedRoundRobinConfigs (cfg : String)
  | modelBasedRoundRobin (production sandbox : List ModelConfig) (suspendDuration : String)
  | header (name value : String)
  | redirect (url : String)
  | mirror (url : String)
deriving DecidableEq

/-- `OperationPolicy` (rest_server.go:746-752). -/
structure OperationPolicy where
  policyName : String
  policyVersion : String
  policyID : String := ""
  policyType : String := ""
  parameters : FilterParameters
deriving DecidableEq

/-- `OperationPolicies` (rest_server.go:739-743). -/
structure OperationPolicies where
  request : List OperationPolicy := []
  response : List OperationPolicy := []
  fault : List String := []
deriving DecidableEq

/-- `APIOperation` (rest_server.go:727-736). -/
structure APIOperation where
  id : String := ""
  target : String := ""
  verb : String := ""
  authType : String := ""
  throttlingPolicy : String := ""
  scopes : List String := []
  usedProductIDs : List String := []
  operationPolicies : OperationPolicies := {}
deriving DecidableEq

/-- `Scope` (rest_server.go:833-838). -/
structure Scope where
  name : String := ""
  displayName : String := ""
  description : String := ""
  bindings : List String := []
deriving DecidableEq

/-- `ScopeWrapper` (rest_server.go:827-830). -/
structure ScopeWrapper where
  scope : Scope := {}
  shared : Bool := false
deriving DecidableEq

/-! ## Resolved endpoint descriptors -/

/-- `SecurityConfig` of an endpoint (field `Type` is rendered `typ`). -/
structure SecurityConfig where
  enabled : Bool := false
  typ : String := ""
  username : String := ""
  password : String := ""
  apiKeyIdentifier : String := ""
  apiKeyValue : String := ""
  apiKeyIdentifierType : String := ""
  connectionTimeoutDuration : Int := 0
  socketTimeoutDuration : Int := 0
  connectionRequestTimeoutDuration : Int := 0
deriving DecidableEq

/-- `Endpoints` holds one URL. -/
structure Endpoints where
  url : String := ""
deriving DecidableEq

/-- `APIMEndpointSecurity`. -/
structure APIMEndpointSecurity where
  production : SecurityConfig := {}
  sandbox : SecurityConfig := {}
deriving DecidableEq

/-- `APIMEndpointConfig`. -/
structure APIMEndpointConfig where
  endpointType : String := ""
  productionEndpoints : Endpoints := {}
  sandboxEndpoints : Endpoints := {}
  endpointSecurity : APIMEndpointSecurity := {}
deriving DecidableEq

/-- `APIMEndpoint`: one resolved endpoint descriptor. -/
structure APIMEndpoint where
  deploymentStage : String := ""
  endpointUUID : String := ""
  endpointName : String := ""
  endpointConfig : APIMEndpointConfig := {}
deriving DecidableEq

/-- Embeds `convertAIModelWeightsToModelConfigs` (rest_server.go:840-861):
a weight binds to the first descriptor whose production or sandbox URL equals
the declared endpoint URL. -/
def convertAIModelWeightsToModelConfigs (weights : List AIModelWeight)
    (apimEndpoints : List APIMEndpoint) (_isProd : Bool) : List ModelConfig :=
  weights.map (fun weight =>
    let endpointID :=
      match apimEndpoints.find? (fun endpoint =>
        endpoint.endpointConfig.productionEndpoints.url == weight.endpoint ||
        endpoint.endpointConfig.sandboxEndpoints.url == weight.endpoint) with
      | some endpoint => endpoint.endpointUUID
      | none => ""
    { model := weight.model, endpointId := endpointID, weight := weight.weight })

/-! ## The remaining event data model -/

/-- `CORSPolicy` fields consumed by `createAPIYaml`. -/
structure CORSPolicy where
  accessControlAllowOrigins : List String := []
  accessControlAllowCredentials : Bool := false
  accessControlAllowHeaders : List String := []
  accessControlAllowMethods : List String := []
  accessControlExposeHeaders : List String := []
deriving DecidableEq

/-- AI rate-limit descriptor (`ProdAIRL`/`SandAIRL`). -/
structure AIRL where
  requestCount : Int := 0
  timeUnit : String := ""
  promptTokenCount : Option Int := none
  completionTokenCount : Option Int := none
  totalTokenCount : Option Int := none
deriving DecidableEq

/-- `AIConfiguration` of the event. -/
structure AIConfiguration where
  llmProviderID : String := ""
  llmProviderName : String := ""
  llmProviderAPIVersion : String := ""
deriving DecidableEq

/-- API-level endpoint security (`ProdEndpointSecurity`/`SandEndpointSecurity`). -/
structure EndpointSecurityConfig where
  enabled : Bool := false
  securityType : String := ""
  apiKeyName : String := ""
  apiKeyValue : String := ""
  basicUsername : String := ""
  basicPassword : String := ""
deriving DecidableEq

/-- One multi-endpoint entry of the event. -/
structure MultiEndpointEntry where
  url : String := ""
  securityEnabled : Bool := false
  securityType : String := ""
  basicUsername : String := ""
  basicPassword : String := ""
  apiKeyName : String := ""
  apiKeyValue : String := ""
  apiKeyIn : String := ""
deriving DecidableEq

/-- The event multi-endpoint configuration. -/
structure MultiEndpoints where
  protocol : String := ""
  prodEndpoints : List MultiEndpointEntry := []
  sandEndpoints : List MultiEndpointEntry := []
deriving DecidableEq

/-- The API descriptor carried by a lifecycle event. -/
structure API where
  apiName : String := ""
  apiVersion : String := ""
  basePath : String := ""
  organization : String := ""
  apiType : String := ""
  apiSubType : String := ""
  definition : String := ""
  prodEndpoint : String := ""
  sandEndpoint : String := ""
  endpointProtocol : String := ""
  multiEndpoints : MultiEndpoints := {}
  operations : List OperationFromDP := []
  corsPolicy : Option CORSPolicy := none
  prodAIRL : Option AIRL := none
  sandAIRL : Option AIRL := none
  apiProperties : List (String × String) := []
  securityScheme : List String := []
  authHeader : String := ""
  apiKeyHeader : String := ""
  apiUUID : String := ""
  revisionID : String := ""
  vhost : String := ""
  isDefaultVersion : Bool := false
  aiConfiguration : AIConfiguration := {}
  prodEndpointSecurity : EndpointSecurityConfig := {}
  sandEndpointSecurity : EndpointSecurityConfig := {}
  aiModelBasedRoundRobin : Option AIModelBasedRoundRobin := none
deriving DecidableEq

/-- The two lifecycle event shapes. -/
inductive EventKind where
  | createEvent
  | deleteEvent
deriving DecidableEq

/-- `APICPEvent`: a lifecycle event. -/
structure APICPEvent where
  event : EventKind := .createEvent
  api : API := {}
deriving DecidableEq

/-! ## Operation extraction (`extractOperations`, rest_server.go:863-1036) -/

/-- The request-direction header removals listed by a filter. -/
def filterReqRemoves : APKOperationFilter → List String
  | .headers requestHeaders _ => requestHeaders.removeHeaders
  | _ => []

/-- Processes one filter of a matched operation over the pair of shared policy
accumulators `(request, response)`.  The request-header-removal case mirrors
the source exactly: each iteration assigns
`requestOperationPolicies = append(responseOperationPolicies, policy)`,
so the request accumulator ends as the response accumulator plus the last
removal policy (slice value semantics). -/
def processFilter (reqResp : List OperationPolicy × List OperationPolicy) :
    APKOperationFilter → List OperationPolicy × List OperationPolicy
  | .headers requestHeaders responseHeaders =>
    let req := reqResp.1
    let resp := reqResp.2
    let req := if requestHeaders.addHeaders ≠ [] then
        req ++ requestHeaders.addHeaders.map (fun h =>
          { policyName := constantsAddHeader, policyVersion := constantsV1,
            parameters := .header h.name h.value : OperationPolicy })
      else req
    let req := if requestHeaders.removeHeaders ≠ [] then
        requestHeaders.removeHeaders.foldl (fun _ h =>
          resp ++ [{ policyName := constantsRemoveHeader, policyVersion := constantsV1,
                     parameters := .header h "" : OperationPolicy }]) req
      else req
    let resp := if responseHeaders.addHeaders ≠ [] then
        resp ++ responseHeaders.addHeaders.map (fun h =>
          { policyName := constantsAddHeader, policyVersion := constantsV1,
            parameters := .header h.name h.value : OperationPolicy })
      else resp
    let resp := if responseHeaders.removeHeaders ≠ [] then
        resp ++ responseHeaders.removeHeaders.map (fun h =>
          { policyName := constantsRemoveHeader, policyVersion := constantsV1,
            parameters := .header h "" : OperationPolicy })
      else resp
    (req, resp)
  | .mirrorRequest urls =>
    (reqResp.1 ++ urls.map (fun url =>
      { policyName := constantsMirrorRequest, policyVersion := constantsV1,
        parameters := .mirror url : OperationPolicy }), reqResp.2)
  | .redirectRequest url =>
    (reqResp.1 ++ [{ policyName := constantsRedirectRequest, policyVersion := constantsV1,
                     parameters := .mirror url : OperationPolicy }], reqResp.2)

/-- Accumulator threaded through the REST branch of `extractOperations`:
the emitted operations, the two shared policy accumulators, and the
deduplicating scope map. -/
structure ExtractAcc where
  apiOperations : List APIOperation := []
  requestOperationPolicies : List OperationPolicy := []
  responseOperationPolicies : List OperationPolicy := []
  scopewrappers : List (String × ScopeWrapper) := []
deriving DecidableEq

/-- The per-operation AI model-routing policy (rest_server.go:903-915). -/
def aiPolicy (apimEndpoints : List APIMEndpoint) (ai : AIModelBasedRoundRobin) : OperationPolicy :=
  { policyName := constantsModelWeightedRoundRobin, policyVersion := constantsV1,
    parameters := .modelBasedRoundRobin
      (convertAIModelWeightsToModelConfigs ai.productionModels apimEndpoints true)
      (convertAIModelWeightsToModelConfigs ai.sandboxModels apimEndpoints false)
      (toString ai.onQuotaExceedSuspendDuration) }

/-- Handles one matched `(path, verb)` pair: collects scopes, the optional
per-operation AI-routing policy, the filters, and emits the operation with
the current accumulator contents. -/
def processMatchedOperation (apimEndpoints : List APIMEndpoint) (path verb : String)
    (operationFromDP : OperationFromDP) (acc : ExtractAcc) : ExtractAcc :=
  let scopes := operationFromDP.scopes
  let scopewrappers := scopes.foldl (fun m scope =>
    mapSet m scope
      { scope := { name := scope, displayName := scope, description := scope, bindings := [] },
        shared := false }) acc.scopewrappers
  let reqPol := match operationFromDP.aiModelBasedRoundRobin with
    | some ai => acc.requestOperationPolicies ++ [aiPolicy apimEndpoints ai]
    | none => acc.requestOperationPolicies
  let folded := operationFromDP.filters.foldl processFilter
    (reqPol, acc.responseOperationPolicies)
  let apiOp : APIOperation :=
    { target := path, verb := verb, authType := "Application & Application User",
      throttlingPolicy := "Unlimited", scopes := scopes,
      operationPolicies := { request := folded.1, response := folded.2, fault := [] } }
  { apiOperations := acc.apiOperations ++ [apiOp],
    requestOperationPolicies := folded.1,
    responseOperationPolicies := folded.2,
    scopewrappers := scopewrappers }

/-- Flattens the parsed paths map into its `(path, verb)` pairs in order. -/
def restPairs (parsed : List (String × List String)) : List (String × String) :=
  (parsed.map (fun pv => pv.2.map (fun verb => (pv.1, verb)))).flatten

/-- Embeds `extractOperations`: GraphQL events yield empty results (the
operations built in the GraphQL branch are discarded by the final return of
the source), REST events parse the definition (abstracted as `parsePaths`)
and process every `(path, verb)` pair against the declared operations.
The order of the parsed `paths` list stands for one draw of Go's randomized
`range` order over the schema path map (rest_server.go:885); a run that
iterates the map differently is modelled by permuting the parsed list.  The
scope-wrapper map's `range` (rest_server.go:1030) is likewise randomized in
the source; the embedding emits it in insertion order, one fixed draw. -/
def extractOperations (parsePaths : String → Option (List (String × List String)))
    (matchRegex : String → String → Bool) (event : APICPEvent)
    (apimEndpoints : List APIMEndpoint) :
    Option (List APIOperation × List ScopeWrapper) :=
  if goToUpper event.api.apiType = "GRAPHQL" then some ([], [])
  else if goToUpper event.api.apiType = "REST" then
    match parsePaths event.api.definition with
    | none => none
    | some paths =>
      let finalAcc := (restPairs paths).foldl (fun acc pv =>
        match findMatchingAPKOperation matchRegex pv.1 pv.2 event.api.operations with
        | none => acc
        | some opDP => processMatchedOperation apimEndpoints pv.1 pv.2 opDP acc) {}
      some (finalAcc.apiOperations, finalAcc.scopewrappers.map (fun kv => kv.2))
  else some ([], [])

/-- Fixture: a declared REST operation whose only filter removes two request
headers. -/
def opRemoveTwo : OperationFromDP :=
  { path := "/p", verb := "get", scopes := [],
    filters := [.headers ({ addHeaders := [], removeHeaders := ["X-A", "X-B"] })
                  ({ addHeaders := [], removeHeaders := [] })],
    aiModelBasedRoundRobin := none }

/-- Fixture: the REST event carrying `opRemoveTwo`. -/
def eventC3 : APICPEvent :=
  { event := .createEvent,
    api := { apiType := "REST", definition := "d", operations := [opRemoveTwo] } }

/-- C3: the claim says a request-header-removal filter listing `k` names
appends exactly `k` removal policies to the operation's request-direction
list.  The source instead assigns
`requestOperationPolicies = append(responseOperationPolicies, policy)`
(rest_server.go:949), so for a filter removing the two headers `X-A` and
`X-B` the matched operation's request list holds only the single policy for
`X-B` (the response list, here empty, plus the last removal), contradicting
the code's own surrounding structure (the add-header and response-removal
cases append to their own accumulator) and the spec's intent. -/
theorem c3_request_remove_bug :
    (extractOperations (fun _ => some [("/p", ["get"])]) (fun _ _ => true) eventC3 []).map
        (fun r => r.1.map (fun op => op.operationPolicies.request)) =
      some [[{ policyName := constantsRemoveHeader, policyVersion := constantsV1,
               parameters := .header "X-B" "" }]] ∧
    (extractOperations (fun _ => some [("/p", ["get"])]) (fun _ _ => true) eventC3 []).map
        (fun r => r.1.map (fun op => op.operationPolicies.response)) =
      some [[]] := by
  constructor
  · decide
  · decide

/-- Fixture: first declared operation, adding one request header. -/
def opAddOne : OperationFromDP :=
  { path := "/x", verb := "get", scopes := [],
    filters := [.headers ({ addHeaders := [{ name := "H", value := "V" }], removeHeaders := [] })
                  ({ addHeaders := [], removeHeaders := [] })],
    aiModelBasedRoundRobin := none }

/-- Fixture: second declared operation, removing one request header. -/
def opRemoveOne : OperationFromDP :=
  { path := "/x", verb := "post", scopes := [],
    filters := [.headers ({ addHeaders := [], removeHeaders := ["R"] })
                  ({ addHeaders := [], removeHeaders := [] })],
    aiModelBasedRoundRobin := none }

/-- Fixture: REST event with two declared operations. -/
def eventC10 : APICPEvent :=
  { event := .createEvent,
    api := { apiType := "REST", definition := "d", operations := [opAddOne, opRemoveOne] } }

/-- The add-header policy emitted for the first operation of `eventC10`. -/
def addHPolicy : OperationPolicy :=
  { policyName := constantsAddHeader, policyVersion := constantsV1,
    parameters := .header "H" "V" }

/-- The remove-header policy emitted for the second operation of `eventC10`. -/
def removeRPolicy : OperationPolicy :=
  { policyName := constantsRemoveHeader, policyVersion := constantsV1,
    parameters := .header "R" "" }

/-- C10 counterexample: with a first matched operation adding a request
header and a second one removing a request header, the second operation's
request policy list is `[removeRPolicy]`, which does not contain the first
operation's policy — a later operation's policy list is not a superset of
every earlier one's. -/
theorem c10_counterexample :
    (extractOperations (fun _ => some [("/x", ["get", "post"])])
        (fun _ _ => true) eventC10 []).map
        (fun r => r.1.map (fun op => op.operationPolicies.request)) =
      some [[addHPolicy], [removeRPolicy]] ∧ addHPolicy ∉ [removeRPolicy] := by
  constructor
  · decide
  · decide

theorem processFilter_resp (rr : List OperationPolicy × List OperationPolicy)
    (f : APKOperationFilter) : ∃ t, (processFilter rr f).2 = rr.2 ++ t := by
  cases f with
  | headers rqh rsh =>
    dsimp only [processFilter]
    by_cases h1 : rsh.addHeaders = [] <;> by_cases h2 : rsh.removeHeaders = [] <;>
      simp [h1, h2] <;> exact ⟨_, by simp⟩
  | mirrorRequest urls => exact ⟨[], by simp [processFilter]⟩
  | redirectRequest url => exact ⟨[], by simp [processFilter]⟩

theorem processFilter_req (rr : List OperationPolicy × List OperationPolicy)
    (f : APKOperationFilter) (hf : filterReqRemoves f = []) :
    ∃ t, (processFilter rr f).1 = rr.1 ++ t := by
  cases f with
  | headers rqh rsh =>
    have hrm : rqh.removeHeaders = [] := hf
    dsimp only [processFilter]
    by_cases h1 : rqh.addHeaders = [] <;> simp [h1, hrm] <;> exact ⟨_, by simp⟩
  | mirrorRequest urls => exact ⟨_, rfl⟩
  | redirectRequest url => exact ⟨_, rfl⟩

theorem foldl_processFilter_resp :
    ∀ (fs : List APKOperationFilter) (rr : List OperationPolicy × List OperationPolicy),
      ∃ t, (fs.foldl processFilter rr).2 = rr.2 ++ t := by
  intro fs
  induction fs with
  | nil => intro rr; exact ⟨[], by simp⟩
  | cons f rest ih =>
    intro rr
    obtain ⟨t1, h1⟩ := processFilter_resp rr f
    obtain ⟨t2, h2⟩ := ih (processFilter rr f)
    exact ⟨t1 ++ t2, by rw [List.foldl_cons, h2, h1, List.append_assoc]⟩

theorem foldl_processFilter_req :
    ∀ (fs : List APKOperationFilter) (rr : List OperationPolicy × List OperationPolicy),
      (∀ f ∈ fs, filterReqRemoves f = []) →
      ∃ t, (fs.foldl processFilter rr).1 = rr.1 ++ t := by
  intro fs
  induction fs with
  | nil => intro rr _; exact ⟨[], by simp⟩
  | cons f rest ih =>
    intro rr hall
    obtain ⟨t1, h1⟩ := processFilter_req rr f (hall f (List.mem_cons_self _ _))
    obtain ⟨t2, h2⟩ := ih (processFilter rr f) (fun g hg => hall g (List.mem_cons_of_mem _ hg))
    exact ⟨t1 ++ t2, by rw [List.foldl_cons, h2, h1, List.append_assoc]⟩

theorem processMatchedOperation_spec (eps : List APIMEndpoint) (path verb : String)
    (opDP : OperationFromDP) (acc : ExtractAcc) :
    ∃ req2 resp2 sw2,
      processMatchedOperation eps path verb opDP acc =
        { apiOperations := acc.apiOperations ++
            [{ target := path, verb := verb, authType := "Application & Application User",
               throttlingPolicy := "Unlimited", scopes := opDP.scopes,
               operationPolicies := { request := req2, response := resp2, fault := [] } }],
          requestOperationPolicies := req2,
          responseOperationPolicies := resp2,
          scopewrappers := sw2 } ∧
      (∃ t, resp2 = acc.responseOperationPolicies ++ t) ∧
      ((∀ f ∈ opDP.filters, filterReqRemoves f = []) →
        ∃ t, req2 = acc.requestOperationPolicies ++ t) := by
  refine ⟨_, _, _, rfl, ?_, ?_⟩
  · exact foldl_processFilter_resp opDP.filters _
  · intro hall
    cases hai : opDP.aiModelBasedRoundRobin with
    | none =>
      obtain ⟨t1, h1⟩ := foldl_processFilter_req opDP.filters
        (acc.requestOperationPolicies, acc.responseOperationPolicies) hall
      exact ⟨t1, h1⟩
    | some ai =>
      obtain ⟨t1, h1⟩ := foldl_processFilter_req opDP.filters
        (acc.requestOperationPolicies ++ [aiPolicy eps ai],
          acc.responseOperationPolicies) hall
      refine ⟨[aiPolicy eps ai] ++ t1, ?_⟩
      rw [h1, List.append_assoc]

/-- Invariant: the emitted operations' response policy lists grow along the
fold, each being an initial run of the shared response accumulator. -/
def RespInv (acc : ExtractAcc) : Prop :=
  ((acc.apiOperations.map (fun o => o.operationPolicies.response)).Pairwise
    (fun a b => ∃ t, b = a ++ t)) ∧
  ∀ o ∈ acc.apiOperations, ∃ t,
    acc.responseOperationPolicies = o.operationPolicies.response ++ t

/-- Invariant: the request-direction analogue of `RespInv`. -/
def ReqInv (acc : ExtractAcc) : Prop :=
  ((acc.apiOperations.map (fun o => o.operationPolicies.request)).Pairwise
    (fun a b => ∃ t, b = a ++ t)) ∧
  ∀ o ∈ acc.apiOperations, ∃ t,
    acc.requestOperationPolicies = o.operationPolicies.request ++ t

theorem step_RespInv (eps : List APIMEndpoint) (path verb : String)
    (opDP : OperationFromDP) (acc : ExtractAcc) (h : RespInv acc) :
    RespInv (processMatchedOperation eps path verb opDP acc) := by
  obtain ⟨req2, resp2, sw2, heq, ⟨t, ht⟩, _⟩ :=
    processMatchedOperation_spec eps path verb opDP acc
  rw [heq]
  constructor
  · simp only [List.map_append, List.map_cons, List.map_nil]
    rw [List.pairwise_append]
    refine ⟨h.1, by simp, ?_⟩
    intro a ha b hb
    simp only [List.mem_singleton] at hb
    subst hb
    rcases List.mem_map.mp ha with ⟨o, ho, rfl⟩
    obtain ⟨t0, ht0⟩ := h.2 o ho
    exact ⟨t0 ++ t, by rw [ht, ht0, List.append_assoc]⟩
  · intro o ho
    rcases List.mem_append.mp ho with ho | ho
    · obtain ⟨t0, ht0⟩ := h.2 o ho
      exact ⟨t0 ++ t, by rw [ht, ht0, List.append_assoc]⟩
    · simp only [List.mem_singleton] at ho
      subst ho
      exact ⟨[], by simp⟩

theorem step_ReqInv (eps : List APIMEndpoint) (path verb : String)
    (opDP : OperationFromDP) (acc : ExtractAcc) (h : ReqInv acc)
    (hop : ∀ f ∈ opDP.filters, filterReqRemoves f = []) :
    ReqInv (processMatchedOperation eps path verb opDP acc) := by
  obtain ⟨req2, resp2, sw2, heq, _, hreq⟩ :=
    processMatchedOperation_spec eps path verb opDP acc
  obtain ⟨t, ht⟩ := hreq hop
  rw [heq]
  constructor
  · simp only [List.map_append, List.map_cons, List.map_nil]
    rw [List.pairwise_append]
    refine ⟨h.1, by simp, ?_⟩
    intro a ha b hb
    simp only [List.mem_singleton] at hb
    subst hb
    rcases List.mem_map.mp ha with ⟨o, ho, rfl⟩
    obtain ⟨t0, ht0⟩ := h.2 o ho
    exact ⟨t0 ++ t, by rw [ht, ht0, List.append_assoc]⟩
  · intro o ho
    rcases List.mem_append.mp ho with ho | ho
    · obtain ⟨t0, ht0⟩ := h.2 o ho
      exact ⟨t0 ++ t, by rw [ht, ht0, List.append_assoc]⟩
    · simp only [List.mem_singleton] at ho
      subst ho
      exact ⟨[], by simp⟩

theorem extract_fold_RespInv (matchRegex : String → String → Bool)
    (declared : List OperationFromDP) (eps : List APIMEndpoint) :
    ∀ (pairs : List (String × String)) (acc : ExtractAcc), RespInv acc →
      RespInv (pairs.foldl (fun acc pv =>
        match findMatchingAPKOperation matchRegex pv.1 pv.2 declared with
        | none => acc
        | some opDP => processMatchedOperation eps pv.1 pv.2 opDP acc) acc) := by
  intro pairs
  induction pairs with
  | nil => intro acc h; exact h
  | cons pv rest ih =>
    intro acc h
    rw [List.foldl_cons]
    cases hf : findMatchingAPKOperation matchRegex pv.1 pv.2 declared with
    | none => simp only [hf]; exact ih acc h
    | some opDP =>
      simp only [hf]
      exact ih _ (step_RespInv eps pv.1 pv.2 opDP acc h)

theorem extract_fold_ReqInv (matchRegex : String → String → Bool)
    (declared : List OperationFromDP) (eps : List APIMEndpoint)
    (hall : ∀ op ∈ declared, ∀ f ∈ op.filters, filterReqRemoves f = []) :
    ∀ (pairs : List (String × String)) (acc : ExtractAcc), ReqInv acc →
      ReqInv (pairs.foldl (fun acc pv =>
        match findMatchingAPKOperation matchRegex pv.1 pv.2 declared with
        | none => acc
        | some opDP => processMatchedOperation eps pv.1 pv.2 opDP acc) acc) := by
  intro pairs
  induction pairs with
  | nil => intro acc h; exact h
  | cons pv rest ih =>
    intro acc h
    rw [List.foldl_cons]
    cases hf : findMatchingAPKOperation matchRegex pv.1 pv.2 declared with
    | none => simp only [hf]; exact ih acc h
    | some opDP =>
      simp only [hf]
      have hmem : opDP ∈ declared := by
        rw [findMatchingAPKOperation_eq_find] at hf
        exact List.mem_of_find?_eq_some hf
      exact ih _ (step_ReqInv eps pv.1 pv.2 opDP acc h (hall opDP hmem))

/-- C10 amended: during REST operation extraction the two policy accumulators
are shared across all matched operations; each later matched operation's
response policy list extends every earlier one's (earlier lists are initial
runs of later ones), and the same holds for the request policy lists provided
no request-header-removal filter occurs among the declared operations (a
request-header-removal filter instead replaces the request accumulator with
the response accumulator plus the last removal policy, see the C3 finding). -/
theorem c10_amended_shared_policy_accumulators
    (parsePaths : String → Option (List (String × List String)))
    (matchRegex : String → String → Bool) (event : APICPEvent)
    (eps : List APIMEndpoint) (ops : List APIOperation) (scopes : List ScopeWrapper)
    (h : extractOperations parsePaths matchRegex event eps = some (ops, scopes)) :
    ((ops.map (fun o => o.operationPolicies.response)).Pairwise
      (fun a b => ∃ t, b = a ++ t)) ∧
    ((∀ op ∈ event.api.operations, ∀ f ∈ op.filters, filterReqRemoves f = []) →
      (ops.map (fun o => o.operationPolicies.request)).Pairwise
        (fun a b => ∃ t, b = a ++ t)) := by
  unfold extractOperations at h
  by_cases hg : goToUpper event.api.apiType = "GRAPHQL"
  · rw [if_pos hg] at h
    obtain ⟨h1, h2⟩ := Prod.mk.injEq _ _ _ _ ▸ Option.some.inj h
    subst h1
    exact ⟨by simp, fun _ => by simp⟩
  · rw [if_neg hg] at h
    by_cases hr : goToUpper event.api.apiType = "REST"
    · rw [if_pos hr] at h
      cases hp : parsePaths event.api.definition with
      | none => rw [hp] at h; cases h
      | some paths =>
        rw [hp] at h
        simp only at h
        obtain ⟨h1, h2⟩ := Prod.mk.injEq _ _ _ _ ▸ Option.some.inj h
        subst h1
        constructor
        · exact (extract_fold_RespInv matchRegex event.api.operations eps
            (restPairs paths) {} ⟨by simp, by simp⟩).1
        · intro hall
          exact (extract_fold_ReqInv matchRegex event.api.operations eps hall
            (restPairs paths) {} ⟨by simp, by simp⟩).1
    · rw [if_neg hr] at h
      obtain ⟨h1, h2⟩ := Prod.mk.injEq _ _ _ _ ▸ Option.some.inj h
      subst h1
      exact ⟨by simp, fun _ => by simp⟩

/-- Fixture: event with two declared operations that only add headers. -/
def eventC10w : APICPEvent :=
  { event := .createEvent,
    api := { apiType := "REST", definition := "d",
             operations := [opAddOne,
               { path := "/x", verb := "post", scopes := [],
                 filters := [.headers ({ addHeaders := [{ name := "K", value := "W" }],
                                         removeHeaders := [] })
                               ({ addHeaders := [], removeHeaders := [] })],
                 aiModelBasedRoundRobin := none }] } }

/-- Witness for `c10_amended_shared_policy_accumulators` at a concrete event
whose operations carry no request-header removals. -/
theorem c10_amended_shared_policy_accumulators_witness :
    ((((extractOperations (fun _ => some [("/x", ["get", "post"])]) (fun _ _ => true)
          eventC10w []).getD ([], [])).1.map
        (fun o => o.operationPolicies.request)).Pairwise
      (fun a b => ∃ t, b = a ++ t)) :=
  (c10_amended_shared_policy_accumulators (fun _ => some [("/x", ["get", "post"])])
    (fun _ _ => true) eventC10w []
    ((extractOperations (fun _ => some [("/x", ["get", "post"])]) (fun _ _ => true)
        eventC10w []).getD ([], [])).1
    ((extractOperations (fun _ => some [("/x", ["get", "post"])]) (fun _ _ => true)
        eventC10w []).getD ([], [])).2
    (by decide)).2 (by decide)

/-! ## Generic document trees (Go `map[string]interface{}` values) -/

/-- A YAML/JSON-like document value: the shape of the generic trees the
source builds with `map[string]interface{}`, slices and scalars.  Objects are
association lists; their order models Go map insertion order. -/
inductive YVal where
  | s : String → YVal
  | b : Bool → YVal
  | i : Int → YVal
  | arr : List YVal → YVal
  | obj : List (String × YVal) → YVal

/-- Go `delete(m, k)` on an association list. -/
def mapRemove {α : Type} (m : List (String × α)) (k : String) : List (String × α) :=
  m.filter (fun kv => kv.1 != k)

/-- In-place mutation of the value stored under `k` (Go nested-map update
through a reference). -/
def mapModify {α : Type} (m : List (String × α)) (k : String) (f : α → α) :
    List (String × α) :=
  m.map (fun kv => if kv.1 = k then (kv.1, f kv.2) else kv)

theorem mapGet_mapModify_ne {α : Type} (m : List (String × α)) (k k' : String)
    (f : α → α) (h : k' ≠ k) : mapGet (mapModify m k f) k' = mapGet m k' := by
  induction m with
  | nil => rfl
  | cons kv rest ih =>
    obtain ⟨k0, v0⟩ := kv
    by_cases h0 : k0 = k
    · have hne : ¬ k0 = k' := fun hh => h (hh.symm.trans h0)
      show mapGet ((if k0 = k then (k0, f v0) else (k0, v0)) :: mapModify rest k f) k' =
        mapGet ((k0, v0) :: rest) k'
      rw [if_pos h0]
      show (if k0 = k' then some (f v0) else mapGet (mapModify rest k f) k') =
        (if k0 = k' then some v0 else mapGet rest k')
      rw [if_neg hne, if_neg hne, ih]
    · show mapGet ((if k0 = k then (k0, f v0) else (k0, v0)) :: mapModify rest k f) k' =
        mapGet ((k0, v0) :: rest) k'
      rw [if_neg h0]
      show (if k0 = k' then some v0 else mapGet (mapModify rest k f) k') =
        (if k0 = k' then some v0 else mapGet rest k')
      by_cases h1 : k0 = k'
      · rw [if_pos h1, if_pos h1]
      · rw [if_neg h1, if_neg h1, ih]

theorem mapGet_mapModify_self {α : Type} (m : List (String × α)) (k : String)
    (f : α → α) : mapGet (mapModify m k f) k = (mapGet m k).map f := by
  induction m with
  | nil => rfl
  | cons kv rest ih =>
    obtain ⟨k0, v0⟩ := kv
    by_cases h0 : k0 = k
    · subst h0
      show mapGet ((if k0 = k0 then (k0, f v0) else (k0, v0)) :: mapModify rest k0 f) k0 =
        Option.map f (mapGet ((k0, v0) :: rest) k0)
      rw [if_pos rfl]
      show (if k0 = k0 then some (f v0) else mapGet (mapModify rest k0 f) k0) =
        Option.map f (if k0 = k0 then some v0 else mapGet rest k0)
      rw [if_pos rfl, if_pos rfl]
      rfl
    · show mapGet ((if k0 = k then (k0, f v0) else (k0, v0)) :: mapModify rest k f) k =
        Option.map f (mapGet ((k0, v0) :: rest) k)
      rw [if_neg h0]
      show (if k0 = k then some v0 else mapGet (mapModify rest k f) k) =
        Option.map f (if k0 = k then some v0 else mapGet rest k)
      rw [if_neg h0, if_neg h0, ih]

/-- The double-quote character. -/
def dquote : Char := Char.ofNat 34

/-- The single-quote character. -/
def squote : Char := Char.ofNat 39

/-- Embeds Go `strings.ReplaceAll(s, double-quote, single-quote)`. -/
def replaceQuotes (jsonStr : String) : String :=
  String.mk (jsonStr.toList.map (fun c => if c = dquote then squote else c))

/-! ## Rendering typed records into document trees (yaml tags) -/

/-- `ModelConfig` rendered with its yaml field names. -/
def modelConfigToYVal (m : ModelConfig) : YVal :=
  .obj [("model", .s m.model), ("endpointId", .s m.endpointId), ("weight", .i m.weight)]

/-- `FilterParameters` rendered per variant: the `Header` yaml drops an empty
`headerValue` (omitempty). -/
def filterParametersToYVal : FilterParameters → YVal
  | .weightedRoundRobinConfigs cfg => .obj [("weightedRoundRobinConfigs", .s cfg)]
  | .modelBasedRoundRobin production sandbox suspendDuration =>
      .obj [("production", .arr (production.map modelConfigToYVal)),
            ("sandbox", .arr (sandbox.map modelConfigToYVal)),
            ("suspendDuration", .s suspendDuration)]
  | .header name value =>
      .obj (("headerName", .s name) ::
        (if value = "" then [] else [("headerValue", .s value)]))
  | .redirect url => .obj [("url", .s url)]
  | .mirror url => .obj [("url", .s url)]

/-- `OperationPolicy` rendered with its yaml tags (`policyId` and
`policyType` are omitempty). -/
def operationPolicyToYVal (p : OperationPolicy) : YVal :=
  .obj ([("policyName", .s p.policyName), ("policyVersion", .s p.policyVersion)]
    ++ (if p.policyID = "" then [] else [("policyId", .s p.policyID)])
    ++ (if p.policyType = "" then [] else [("policyType", .s p.policyType)])
    ++ [("parameters", filterParametersToYVal p.parameters)])

/-- `OperationPolicies` rendered with its yaml tags. -/
def operationPoliciesToYVal (ps : OperationPolicies) : YVal :=
  .obj [("request", .arr (ps.request.map operationPolicyToYVal)),
        ("response", .arr (ps.response.map operationPolicyToYVal)),
        ("fault", .arr (ps.fault.map YVal.s))]

/-- `APIOperation` rendered with its yaml tags. -/
def apiOperationToYVal (op : APIOperation) : YVal :=
  .obj [("id", .s op.id), ("target", .s op.target), ("verb", .s op.verb),
        ("authType", .s op.authType), ("throttlingPolicy", .s op.throttlingPolicy),
        ("scopes", .arr (op.scopes.map YVal.s)),
        ("usedProductIds", .arr (op.usedProductIDs.map YVal.s)),
        ("operationPolicies", operationPoliciesToYVal op.operationPolicies)]

/-- `ScopeWrapper` rendered with its yaml tags. -/
def scopeWrapperToYVal (sw : ScopeWrapper) : YVal :=
  .obj [("scope", .obj [("name", .s sw.scope.name), ("displayName", .s sw.scope.displayName),
          ("description", .s sw.scope.description),
          ("bindings", .arr (sw.scope.bindings.map YVal.s))]),
        ("shared", .b sw.shared)]

/-- Embeds `createAdditionalProperties` (rest_server.go:1058-1069); tagless
struct fields are lowercased by the yaml encoder.  The input list's order
stands for one draw of Go's randomized `range` order over the property map
(rest_server.go:1060); a run that iterates the map differently is modelled
by permuting the list. -/
def createAdditionalProperties (data : List (String × String)) : YVal :=
  .arr (data.map (fun kv =>
    .obj [("name", .s kv.1), ("value", .s kv.2), ("display", .b false)]))

/-! ## Endpoint Resolver (createAPIYaml lines 167-263) -/

/-- The per-stage security block of a resolved multi-endpoint descriptor. -/
def multiEndpointSecurity (endpoint : MultiEndpointEntry) : SecurityConfig :=
  { enabled := endpoint.securityEnabled, typ := endpoint.securityType,
    username := endpoint.basicUsername, password := endpoint.basicPassword,
    apiKeyIdentifier := endpoint.apiKeyName, apiKeyValue := endpoint.apiKeyValue,
    apiKeyIdentifierType := endpoint.apiKeyIn,
    connectionTimeoutDuration := -1, socketTimeoutDuration := -1,
    connectionRequestTimeoutDuration := -1 }

/-- Prefixes the protocol to a non-empty endpoint URL. -/
def stageEndpointURL (protocol : String) (endpoint : MultiEndpointEntry) : String :=
  if endpoint.url != "" then protocol ++ "://" ++ endpoint.url else ""

/-- The production multi-endpoint loop: assigns names (the first is the
default, later ones are numbered), builds the stage URL, and draws a fresh
identifier suffixed by the stage; `idx` is the position in the identifier
supply, `count` the running endpoint counter. -/
def mkProdEndpoints (gen : Nat → String) (idx count : Nat) (protocol : String) :
    List MultiEndpointEntry → List APIMEndpoint
  | [] => []
  | endpoint :: rest =>
    let count := count + 1
    let endpointName := if count = 1 then "Default Production Endpoint"
      else toString count ++ " Production Endpoint"
    let prodEndpoint := stageEndpointURL protocol endpoint
    let endpointUUID := gen idx ++ "--PRODUCTION"
    let config : APIMEndpointConfig :=
      { endpointType := protocol,
        productionEndpoints := { url := prodEndpoint },
        sandboxEndpoints := {},
        endpointSecurity := { production := multiEndpointSecurity endpoint, sandbox := {} } }
    { deploymentStage := "PRODUCTION", endpointUUID := endpointUUID,
      endpointName := endpointName, endpointConfig := config }
      :: mkProdEndpoints gen (idx + 1) count protocol rest

/-- The sandbox multi-endpoint loop, mirroring `mkProdEndpoints`. -/
def mkSandEndpoints (gen : Nat → String) (idx count : Nat) (protocol : String) :
    List MultiEndpointEntry → List APIMEndpoint
  | [] => []
  | endpoint :: rest =>
    let count := count + 1
    let endpointName := if count = 1 then "Default Sandbox Endpoint"
      else toString count ++ " Sandbox Endpoint"
    let sandEndpoint := stageEndpointURL protocol endpoint
    let endpointUUID := gen idx ++ "--SANDBOX"
    let config : APIMEndpointConfig :=
      { endpointType := protocol,
        productionEndpoints := {},
        sandboxEndpoints := { url := sandEndpoint },
        endpointSecurity := { production := {}, sandbox := multiEndpointSecurity endpoint } }
    { deploymentStage := "SANDBOX", endpointUUID := endpointUUID,
      endpointName := endpointName, endpointConfig := config }
      :: mkSandEndpoints gen (idx + 1) count protocol rest

/-- The primary production endpoint identifier: the identifier drawn for the
first production descriptor, or empty when there is none. -/
def primaryProductionEndpointID (gen : Nat → String)
    (prods : List MultiEndpointEntry) : String :=
  match prods with
  | [] => ""
  | _ :: _ => gen 0 ++ "--PRODUCTION"

/-- The primary sandbox endpoint identifier: drawn after all production
identifiers, or empty when there is no sandbox descriptor. -/
def primarySandboxEndpointID (gen : Nat → String)
    (prods sands : List MultiEndpointEntry) : String :=
  match sands with
  | [] => ""
  | _ :: _ => gen prods.length ++ "--SANDBOX"

/-- The primary production endpoint URL (first descriptor's stage URL). -/
def primaryProductionURL (protocol : String) (prods : List MultiEndpointEntry) : String :=
  match prods with
  | [] => ""
  | endpoint :: _ => stageEndpointURL protocol endpoint

/-- The primary sandbox endpoint URL (first descriptor's stage URL). -/
def primarySandboxURL (protocol : String) (sands : List MultiEndpointEntry) : String :=
  match sands with
  | [] => ""
  | endpoint :: _ => stageEndpointURL protocol endpoint

/-! ## Artifact Synthesizer (createAPIYaml lines 158-699) -/

/-- Process configuration consumed by the synthesizer. -/
structure AgentConfig where
  provider : String := ""
  environmentLabels : List String := []
deriving DecidableEq

/-- The external collaborators of the synthesis step: the YAML codec used on
the OpenAPI definition, the regexp engine of the operation matcher, and the
JSON encoder for the weighted-round-robin configuration. -/
structure Externals where
  parsePaths : String → Option (List (String × List String))
  matchRegex : String → String → Bool
  parseYamlMap : String → Option (List (String × YVal))
  serializeYaml : List (String × YVal) → String
  jsonWrr : List ModelConfig → List ModelConfig → String → String
  jsonToYaml : String → Option String

/-- The sandbox half of the inline `endpoint_security` block
(rest_server.go:332-345); the security type is passed by the caller because
the inline block defaults it to `NONE` while the primary-replacement block
does not. -/
def endpointSecuritySandboxFields (api : API) (sandboxSecType : String) :
    List (String × YVal) :=
  [("apiKeyValue", .s api.sandEndpointSecurity.apiKeyValue),
   ("apiKeyIdentifier", .s api.sandEndpointSecurity.apiKeyName),
   ("apiKeyIdentifierType", .s "HEADER"),
   ("type", .s sandboxSecType),
   ("username", .s api.sandEndpointSecurity.basicUsername),
   ("password", .s api.sandEndpointSecurity.basicPassword),
   ("enabled", .b api.sandEndpointSecurity.enabled),
   ("additionalProperties", .obj []),
   ("customParameters", .obj []),
   ("connectionTimeoutDuration", .i (-1)),
   ("socketTimeoutDuration", .i (-1)),
   ("connectionRequestTimeoutDuration", .i (-1))]

/-- The production half of the inline `endpoint_security` block
(rest_server.go:346-359). -/
def endpointSecurityProductionFields (api : API) (prodSecType : String) :
    List (String × YVal) :=
  [("apiKeyValue", .s api.prodEndpointSecurity.apiKeyValue),
   ("apiKeyIdentifier", .s api.prodEndpointSecurity.apiKeyName),
   ("apiKeyIdentifierType", .s "HEADER"),
   ("type", .s prodSecType),
   ("username", .s api.prodEndpointSecurity.basicUsername),
   ("password", .s api.prodEndpointSecurity.basicPassword),
   ("enabled", .b api.prodEndpointSecurity.enabled),
   ("additionalProperties", .obj []),
   ("customParameters", .obj []),
   ("connectionTimeoutDuration", .i (-1)),
   ("socketTimeoutDuration", .i (-1)),
   ("connectionRequestTimeoutDuration", .i (-1))]

/-- The inline `endpointConfig` block built from the single-endpoint fields
(rest_server.go:323-361). -/
def endpointConfigFields (api : API)
    (sandEndpoint prodEndpoint sandboxSecType prodSecType : String) :
    List (String × YVal) :=
  [("endpoint_type", .s api.endpointProtocol),
   ("sandbox_endpoints", .obj [("url", .s sandEndpoint)]),
   ("production_endpoints", .obj [("url", .s prodEndpoint)]),
   ("endpoint_security", .obj [
      ("sandbox", .obj (endpointSecuritySandboxFields api sandboxSecType)),
      ("production", .obj (endpointSecurityProductionFields api prodSecType))])]

/-- The inner `data` map of the api document (rest_server.go:304-371). -/
def apiDataCore (provider context apiType : String) (api : API)
    (operations : List APIOperation) (scopes : List ScopeWrapper)
    (sandEndpoint prodEndpoint sandboxSecType prodSecType : String) :
    List (String × YVal) :=
  [("name", .s api.apiName),
   ("context", .s context),
   ("version", .s api.apiVersion),
   ("organizationId", .s api.organization),
   ("provider", .s provider),
   ("lifeCycleStatus", .s "CREATED"),
   ("responseCachingEnabled", .b false),
   ("cacheTimeout", .i 300),
   ("hasThumbnail", .b false),
   ("isDefaultVersion", .b api.isDefaultVersion),
   ("isRevision", .b false),
   ("enableSchemaValidation", .b false),
   ("enableSubscriberVerification", .b false),
   ("type", .s apiType),
   ("transport", .arr [.s "http", .s "https"]),
   ("endpointConfig", .obj (endpointConfigFields api sandEndpoint prodEndpoint
      sandboxSecType prodSecType)),
   ("policies", .arr [.s "Unlimited"]),
   ("gatewayType", .s "wso2/apk"),
   ("gatewayVendor", .s "wso2"),
   ("operations", .arr (operations.map apiOperationToYVal)),
   ("additionalProperties", createAdditionalProperties api.apiProperties),
   ("securityScheme", .arr (api.securityScheme.map YVal.s)),
   ("authorizationHeader", .s api.authHeader),
   ("apiKeyHeader", .s api.apiKeyHeader),
   ("scopes", .arr (scopes.map scopeWrapperToYVal))]

/-- The AI subtype-configuration condition (rest_server.go:287-289). -/
def subTypeCond (api : API) : Bool :=
  api.apiSubType != "" && api.aiConfiguration.llmProviderID != "" &&
  api.aiConfiguration.llmProviderName != "" && api.aiConfiguration.llmProviderAPIVersion != ""

/-- The `subtypeConfiguration` fields (rest_server.go:291-293). -/
def subTypeConfigurationFields (api : API) : List (String × YVal) :=
  [("subtype", .s api.apiSubType),
   ("_configuration",
     .s ("\x7b\"llmProviderId\":\"" ++ api.aiConfiguration.llmProviderID ++ "\"\x7d"))]

/-- The `corsConfiguration` fields (rest_server.go:387-394). -/
def corsConfigurationFields (cors : CORSPolicy) : List (String × YVal) :=
  [("corsConfigurationEnabled", .b true),
   ("accessControlAllowOrigins", .arr (cors.accessControlAllowOrigins.map YVal.s)),
   ("accessControlAllowCredentials", .b cors.accessControlAllowCredentials),
   ("accessControlAllowHeaders", .arr (cors.accessControlAllowHeaders.map YVal.s)),
   ("accessControlAllowMethods", .arr (cors.accessControlAllowMethods.map YVal.s)),
   ("accessControlExposeHeaders", .arr (cors.accessControlExposeHeaders.map YVal.s))]

/-- The `maxTps` rate-limit block (rest_server.go:397-444): production
fields, optional token-based sub-limits, then sandbox fields merged into the
same token configuration. -/
def buildMaxTps (api : API) : List (String × YVal) :=
  let maxTps : List (String × YVal) := []
  let maxTps := match api.prodAIRL with
    | some airl =>
      let maxTps := mapSet maxTps "production" (.i airl.requestCount)
      let maxTps := mapSet maxTps "productionTimeUnit" (.s (goToUpper airl.timeUnit))
      let tokenConfig : List (String × YVal) := []
      let tokenConfig := match airl.promptTokenCount with
        | some v => mapSet tokenConfig "productionMaxPromptTokenCount" (.i v)
        | none => tokenConfig
      let tokenConfig := match airl.completionTokenCount with
        | some v => mapSet tokenConfig "productionMaxCompletionTokenCount" (.i v)
        | none => tokenConfig
      let tokenConfig := match airl.totalTokenCount with
        | some v => mapSet tokenConfig "productionMaxTotalTokenCount" (.i v)
        | none => tokenConfig
      if tokenConfig.length > 0 then
        mapSet maxTps "tokenBasedThrottlingConfiguration"
          (.obj (mapSet tokenConfig "isTokenBasedThrottlingEnabled" (.b true)))
      else maxTps
    | none => maxTps
  match api.sandAIRL with
  | some airl =>
    let maxTps := mapSet maxTps "sandbox" (.i airl.requestCount)
    let maxTps := mapSet maxTps "sandboxTimeUnit" (.s (goToUpper airl.timeUnit))
    let tokenConfig := match mapGet maxTps "tokenBasedThrottlingConfiguration" with
      | some (.obj fields) => fields
      | _ => []
    let tokenConfig := match airl.promptTokenCount with
      | some v => mapSet tokenConfig "sandboxMaxPromptTokenCount" (.i v)
      | none => tokenConfig
    let tokenConfig := match airl.completionTokenCount with
      | some v => mapSet tokenConfig "sandboxMaxCompletionTokenCount" (.i v)
      | none => tokenConfig
    let tokenConfig := match airl.totalTokenCount with
      | some v => mapSet tokenConfig "sandboxMaxTotalTokenCount" (.i v)
      | none => tokenConfig
    mapSet maxTps "tokenBasedThrottlingConfiguration" (.obj tokenConfig)
  | none => maxTps

/-- Rewrites the parsed OpenAPI definition (rest_server.go:446-510): injects
per-operation security and the fixed auth-type annotation on matched
`(path, verb)` nodes, then installs the synthetic `default` OAuth2 security
scheme binding the collected scope set, and re-serializes. -/
def rewriteDefinition (exts : Externals) (definition : String)
    (operations : List APIOperation) (scopes : List ScopeWrapper) : String :=
  match exts.parseYamlMap definition with
  | none => definition
  | some openAPI =>
    let openAPI := match mapGet openAPI "paths" with
      | some (.obj paths) =>
        mapSet openAPI "paths" (.obj (paths.map (fun pathKV =>
          match pathKV.2 with
          | .obj pathContent =>
            (pathKV.1, YVal.obj (pathContent.map (fun verbKV =>
              match operations.find? (fun operation =>
                eqFold pathKV.1 operation.target && eqFold verbKV.1 operation.verb) with
              | some operation =>
                match verbKV.2 with
                | .obj verbContent =>
                  let verbContent := if operation.scopes.length > 0 then
                      mapSet verbContent "security"
                        (.arr [.obj [("default", .arr (operation.scopes.map YVal.s))]])
                    else verbContent
                  (verbKV.1, YVal.obj (mapSet verbContent "x-auth-type"
                    (.s "Application & Application User")))
                | _ => verbKV
              | none => verbKV)))
          | _ => pathKV)))
      | _ => openAPI
    let scopesForOpenAPIComponents := scopes.foldl
      (fun m scopeWrapper => mapSet m scopeWrapper.scope.name "") []
    let scopesYVal := YVal.obj (scopesForOpenAPIComponents.map (fun kv => (kv.1, YVal.s kv.2)))
    let components := match mapGet openAPI "components" with
      | some (.obj fields) => fields
      | _ => []
    let securitySchemes := match mapGet components "securitySchemes" with
      | some (.obj fields) => fields
      | _ => []
    let securitySchemes := mapSet securitySchemes "default" (.obj [
        ("type", .s "oauth2"),
        ("flows", .obj [("implicit", .obj [
            ("authorizationUrl", .s "https://test.com"),
            ("scopes", scopesYVal),
            ("x-scopes-bindings", scopesYVal)])])])
    let components := mapSet components "securitySchemes" (.obj securitySchemes)
    let openAPI := mapSet openAPI "components" (.obj components)
    exts.serializeYaml openAPI

/-- One entry of the endpoints document (rest_server.go:514-602). -/
def endpointSecurityOfDescriptor (sec : SecurityConfig) : YVal :=
  .obj [("enabled", .b sec.enabled),
        ("type", .s sec.typ),
        ("apiKeyIdentifier", .s sec.apiKeyIdentifier),
        ("apiKeyValue", .s sec.apiKeyValue),
        ("apiKeyIdentifierType", .s sec.apiKeyIdentifierType),
        ("username", .s sec.username),
        ("customParameters", .s "\x7b\x7d"),
        ("connectionTimeoutDuration", .i sec.connectionTimeoutDuration),
        ("connectionRequestTimeoutDuration", .i sec.connectionRequestTimeoutDuration),
        ("socketTimeoutDuration", .i sec.socketTimeoutDuration),
        ("grantType", .s ""),
        ("tokenUrl", .s ""),
        ("proxyConfigs", .obj [("proxyEnabled", .s ""), ("proxyHost", .s ""),
            ("proxyPort", .s ""), ("proxyUsername", .s ""), ("proxyPassword", .s ""),
            ("proxyProtocol", .s "")])]

/-- Renders one resolved descriptor into the endpoints document. -/
def endpointToYVal (e : APIMEndpoint) : YVal :=
  let configMap : List (String × YVal) := [("endpoint_type", .s e.endpointConfig.endpointType)]
  let configMap := if e.deploymentStage = "PRODUCTION" then
      mapSet configMap "production_endpoints"
        (.obj [("url", .s e.endpointConfig.productionEndpoints.url)])
    else if e.deploymentStage = "SANDBOX" then
      mapSet configMap "sandbox_endpoints"
        (.obj [("url", .s e.endpointConfig.sandboxEndpoints.url)])
    else configMap
  let endpointSecurityMap : List (String × YVal) :=
    if e.deploymentStage = "PRODUCTION" then
      [("production", endpointSecurityOfDescriptor e.endpointConfig.endpointSecurity.production)]
    else if e.deploymentStage = "SANDBOX" then
      [("sandbox", endpointSecurityOfDescriptor e.endpointConfig.endpointSecurity.sandbox)]
    else []
  let endpointSecurityMap := mapSet endpointSecurityMap "customParameters" (.s "null")
  let configMap := mapSet configMap "endpoint_security" (.obj endpointSecurityMap)
  .obj [("id", .s e.endpointUUID), ("name", .s e.endpointName),
        ("deploymentStage", .s e.deploymentStage), ("endpointConfig", .obj configMap)]

/-- The `endpointConfig` written by the primary-endpoint replacement block
(rest_server.go:625-663); unlike the inline block its security types are not
defaulted to `NONE`. -/
def primaryEndpointConfigFields (api : API)
    (primarySandURL primaryProdURL : String) : List (String × YVal) :=
  [("endpoint_type", .s api.endpointProtocol),
   ("sandbox_endpoints", .obj [("url", .s primarySandURL)]),
   ("production_endpoints", .obj [("url", .s primaryProdURL)]),
   ("endpoint_security", .obj [
      ("sandbox", .obj (endpointSecuritySandboxFields api api.sandEndpointSecurity.securityType)),
      ("production", .obj (endpointSecurityProductionFields api api.prodEndpointSecurity.securityType))])]

/-- The API-level weighted-round-robin policy list (rest_server.go:666-693). -/
def apiLevelPolicies (exts : Externals) (api : API)
    (apimEndpints : List APIMEndpoint) : List OperationPolicy :=
  match api.aiModelBasedRoundRobin with
  | some ai =>
    if api.apiType ≠ "GraphQL" then
      let jsonStr := exts.jsonWrr
        (convertAIModelWeightsToModelConfigs ai.productionModels apimEndpints true)
        (convertAIModelWeightsToModelConfigs ai.sandboxModels apimEndpints false)
        (toString ai.onQuotaExceedSuspendDuration)
      [{ policyName := constantsModelWeightedRoundRobin, policyVersion := constantsV1,
         policyType := constantsCommonType,
         parameters := .weightedRoundRobinConfigs (replaceQuotes jsonStr) }]
    else []
  | none => []

/-- The protocol-prefixed single sandbox endpoint URL (rest_server.go:270-273). -/
def synthSandEndpointURL (api : API) : String :=
  if api.sandEndpoint != "" then api.endpointProtocol ++ "://" ++ api.sandEndpoint
  else api.sandEndpoint

/-- The protocol-prefixed single production endpoint URL (rest_server.go:274-278). -/
def synthProdEndpointURL (api : API) : String :=
  if api.prodEndpoint != "" then api.endpointProtocol ++ "://" ++ api.prodEndpoint
  else api.prodEndpoint

/-- The api document's `type` field (rest_server.go:281-284). -/
def synthApiTypeOf (api : API) : String :=
  if api.apiType = "GraphQL" then "GRAPHQL" else "HTTP"

/-- The sandbox security type defaulted to `NONE` (rest_server.go:296-299). -/
def synthSandSecTypeOf (api : API) : String :=
  if api.sandEndpointSecurity.securityType = "" then "NONE"
  else api.sandEndpointSecurity.securityType

/-- The production security type defaulted to `NONE` (rest_server.go:300-303). -/
def synthProdSecTypeOf (api : API) : String :=
  if api.prodEndpointSecurity.securityType = "" then "NONE"
  else api.prodEndpointSecurity.securityType

/-- The resolved production descriptors of one run. -/
def prodDescriptors (gen : Nat → String) (event : APICPEvent) : List APIMEndpoint :=
  mkProdEndpoints gen 0 0 event.api.multiEndpoints.protocol
    event.api.multiEndpoints.prodEndpoints

/-- The resolved sandbox descriptors of one run (identifiers drawn after the
production ones). -/
def sandDescriptors (gen : Nat → String) (event : APICPEvent) : List APIMEndpoint :=
  mkSandEndpoints gen event.api.multiEndpoints.prodEndpoints.length 0
    event.api.multiEndpoints.protocol event.api.multiEndpoints.sandEndpoints

/-- All resolved descriptors, production first. -/
def resolvedEndpoints (gen : Nat → String) (event : APICPEvent) : List APIMEndpoint :=
  prodDescriptors gen event ++ sandDescriptors gen event

/-- The operations extracted for the event (empty on a parse error). -/
def synthOperations (exts : Externals) (gen : Nat → String) (event : APICPEvent) :
    List APIOperation :=
  ((extractOperations exts.parsePaths exts.matchRegex event (resolvedEndpoints gen event)).map
    (fun r => r.1)).getD []

/-- The scope set extracted for the event (empty on a parse error). -/
def synthScopes (exts : Externals) (gen : Nat → String) (event : APICPEvent) :
    List ScopeWrapper :=
  ((extractOperations exts.parsePaths exts.matchRegex event (resolvedEndpoints gen event)).map
    (fun r => r.2)).getD []

/-- The inline endpoint configuration after the conditional per-stage key
deletions (rest_server.go:378-385): an empty single-endpoint URL suppresses
that stage's key entirely. -/
def inlineEndpointConfig (api : API)
    (sandEndpoint prodEndpoint sandboxSecType prodSecType : String) : YVal :=
  let v : YVal := .obj (endpointConfigFields api sandEndpoint prodEndpoint
    sandboxSecType prodSecType)
  let v := if api.sandEndpoint = "" then
      match v with
      | .obj fields => YVal.obj (mapRemove fields "sandbox_endpoints")
      | other => other
    else v
  if api.prodEndpoint = "" then
    match v with
    | .obj fields => YVal.obj (mapRemove fields "production_endpoints")
    | other => other
  else v

/-- The conditional mutations applied to the core data map before the
primary-endpoint replacement: subtype configuration, per-stage endpoint key
deletion, CORS block, and the `maxTps` block (rest_server.go:373-444). -/
def applyEarlyStages (api : API) (data : List (String × YVal)) : List (String × YVal) :=
  let data := if subTypeCond api then
      mapSet data "subtypeConfiguration" (.obj (subTypeConfigurationFields api))
    else data
  let data := if api.sandEndpoint = "" then
      mapModify data "endpointConfig" (fun v =>
        match v with
        | .obj fields => YVal.obj (mapRemove fields "sandbox_endpoints")
        | other => other)
    else data
  let data := if api.prodEndpoint = "" then
      mapModify data "endpointConfig" (fun v =>
        match v with
        | .obj fields => YVal.obj (mapRemove fields "production_endpoints")
        | other => other)
    else data
  let data := match api.corsPolicy with
    | some cors => mapSet data "corsConfiguration" (.obj (corsConfigurationFields cors))
    | none => data
  let maxTps := buildMaxTps api
  if maxTps.length > 0 then mapSet data "maxTps" (.obj maxTps) else data

/-- The primary-endpoint replacement (rest_server.go:616-664) followed by the
API-level policies (rest_server.go:666-693). -/
def applyDataStages (exts : Externals) (api : API) (apimEndpints : List APIMEndpoint)
    (pProdID pSandID pProdURL pSandURL : String) (data : List (String × YVal)) :
    List (String × YVal) :=
  let data := applyEarlyStages api data
  let data := if pProdID ≠ "" ∨ pSandID ≠ "" then
      let data := mapSet data "primaryProductionEndpointId" (.s pProdID)
      let data := mapSet data "primarySandboxEndpointId" (.s pSandID)
      let data := mapSet data "endpointImplementationType" (.s "ENDPOINT")
      mapSet data "endpointConfig" (.obj (primaryEndpointConfigFields api pSandURL pProdURL))
    else data
  mapSet data "apiPolicies"
    (operationPoliciesToYVal
      { request := apiLevelPolicies exts api apimEndpints, response := [], fault := [] })

/-- The fully-built inner `data` map of the api document. -/
def apiDataOf (cfg : Option AgentConfig) (exts : Externals) (gen : Nat → String)
    (apiCPEvent : APICPEvent) : List (String × YVal) :=
  let provider := match cfg with
    | some c => c.provider
    | none => "admin"
  let api := apiCPEvent.api
  let context := removeVersionSuffix api.basePath api.apiVersion
  let data := apiDataCore provider context (synthApiTypeOf api) api
    (synthOperations exts gen apiCPEvent) (synthScopes exts gen apiCPEvent)
    (synthSandEndpointURL api) (synthProdEndpointURL api)
    (synthSandSecTypeOf api) (synthProdSecTypeOf api)
  applyDataStages exts api (resolvedEndpoints gen apiCPEvent)
    (primaryProductionEndpointID gen api.multiEndpoints.prodEndpoints)
    (primarySandboxEndpointID gen api.multiEndpoints.prodEndpoints
      api.multiEndpoints.sandEndpoints)
    (primaryProductionURL api.multiEndpoints.protocol api.multiEndpoints.prodEndpoints)
    (primarySandboxURL api.multiEndpoints.protocol api.multiEndpoints.sandEndpoints)
    data

/-- The endpoints document: built exactly when more than one descriptor
exists in either stage (rest_server.go:604-612), `none` standing for the nil
`endpointsData` whose serialization the caller drops. -/
def endpointsDocOf (gen : Nat → String) (event : APICPEvent) : Option YVal :=
  if event.api.multiEndpoints.prodEndpoints.length > 1 ∨
      event.api.multiEndpoints.sandEndpoints.length > 1 then
    some (.obj [("type", .s "endpoints"), ("version", .s "v4.6.0"),
      ("data", .arr ((resolvedEndpoints gen event).map endpointToYVal))])
  else none

/-- The synthesized artifact bundle of one create/update event. -/
structure SynthBundle where
  apiDoc : YVal
  definition : String
  endpointsDoc : Option YVal

/-- Embeds `createAPIYaml` (rest_server.go:158-699).  The identifier supply
`gen` stands for the successive `uuid.New()` draws of one run. -/
def createAPIYaml (cfg : Option AgentConfig) (exts : Externals) (gen : Nat → String)
    (apiCPEvent : APICPEvent) : SynthBundle :=
  let api := apiCPEvent.api
  let operations := synthOperations exts gen apiCPEvent
  let scopes := synthScopes exts gen apiCPEvent
  let definition := if eqFold api.apiType "rest" then
      rewriteDefinition exts api.definition operations scopes
    else api.definition
  { apiDoc := .obj [("type", .s "api"), ("version", .s "v4.6.0"),
      ("data", .obj (apiDataOf cfg exts gen apiCPEvent))],
    definition := definition,
    endpointsDoc := endpointsDocOf gen apiCPEvent }

/-- Embeds `createDeployementYaml` (rest_server.go:702-724). -/
def createDeployementYaml (cfg : Option AgentConfig) (vhost : String) : YVal :=
  let envLabel := match cfg with
    | some c => c.environmentLabels
    | none => ["Default"]
  .obj [("type", .s "deployment_environments"), ("version", .s "v4.3.0"),
        ("data", .arr (envLabel.map (fun label =>
          .obj [("displayOnDevportal", .b true), ("deploymentEnvironment", .s label),
                ("deploymentVhost", .s vhost)])))]

/-- The full output of one synthesis step for a create/update event. -/
structure SynthOutput where
  apiDoc : YVal
  definition : String
  endpointsDoc : Option YVal
  deploymentDoc : YVal

/-- One synthesis step: `createAPIYaml` plus `createDeployementYaml`
(rest_server.go:103-104). -/
def synthesize (cfg : Option AgentConfig) (exts : Externals) (gen : Nat → String)
    (event : APICPEvent) : SynthOutput :=
  let bundle := createAPIYaml cfg exts gen event
  { apiDoc := bundle.apiDoc, definition := bundle.definition,
    endpointsDoc := bundle.endpointsDoc,
    deploymentDoc := createDeployementYaml cfg event.api.vhost }

/-- Reads one field of the api document's inner `data` map. -/
def lookupData (doc : YVal) (k : String) : Option YVal :=
  match doc with
  | .obj fields =>
    match mapGet fields "data" with
    | some (.obj inner) => mapGet inner k
    | _ => none
  | _ => none

theorem lookupData_createAPIYaml (cfg : Option AgentConfig) (exts : Externals)
    (gen : Nat → String) (event : APICPEvent) (k : String) :
    lookupData (createAPIYaml cfg exts gen event).apiDoc k =
      mapGet (apiDataOf cfg exts gen event) k := rfl

theorem mapGet_stage_set {α : Type} {c : Prop} [Decidable c] {d : List (String × α)}
    {k1 k : String} {v : α} (h : k ≠ k1) :
    mapGet (if c then mapSet d k1 v else d) k = mapGet d k := by
  split
  · exact mapGet_mapSet_ne d v h
  · rfl

theorem mapGet_stage_modify {α : Type} {c : Prop} [Decidable c] {d : List (String × α)}
    {k1 k : String} {f : α → α} (h : k ≠ k1) :
    mapGet (if c then mapModify d k1 f else d) k = mapGet d k := by
  split
  · exact mapGet_mapModify_ne d k1 k f h
  · rfl

theorem mapGet_stage_modify_self {α : Type} {c : Prop} [Decidable c]
    {d : List (String × α)} {k1 : String} {f : α → α} :
    mapGet (if c then mapModify d k1 f else d) k1 =
      (mapGet d k1).map (fun v => if c then f v else v) := by
  split
  · rw [mapGet_mapModify_self]
  · cases mapGet d k1 with
    | none => rfl
    | some v => rfl

theorem mapGet_applyEarlyStages_ne (api : API) (data : List (String × YVal)) (k : String)
    (h1 : k ≠ "subtypeConfiguration") (h2 : k ≠ "corsConfiguration") (h3 : k ≠ "maxTps")
    (h8 : k ≠ "endpointConfig") :
    mapGet (applyEarlyStages api data) k = mapGet data k := by
  unfold applyEarlyStages
  rw [mapGet_stage_set h3]
  cases hc : api.corsPolicy with
  | none =>
    rw [mapGet_stage_modify h8, mapGet_stage_modify h8, mapGet_stage_set h1]
  | some cors =>
    rw [mapGet_mapSet_ne _ _ h2, mapGet_stage_modify h8, mapGet_stage_modify h8,
      mapGet_stage_set h1]

theorem mapGet_applyDataStages_ne (exts : Externals) (api : API)
    (eps : List APIMEndpoint) (pProdID pSandID pProdURL pSandURL : String)
    (data : List (String × YVal)) (k : String)
    (h1 : k ≠ "subtypeConfiguration") (h2 : k ≠ "corsConfiguration") (h3 : k ≠ "maxTps")
    (h4 : k ≠ "apiPolicies") (h5 : k ≠ "primaryProductionEndpointId")
    (h6 : k ≠ "primarySandboxEndpointId") (h7 : k ≠ "endpointImplementationType")
    (h8 : k ≠ "endpointConfig") :
    mapGet (applyDataStages exts api eps pProdID pSandID pProdURL pSandURL data) k =
      mapGet data k := by
  unfold applyDataStages
  rw [mapGet_mapSet_ne _ _ h4]
  split
  · rw [mapGet_mapSet_ne _ _ h8, mapGet_mapSet_ne _ _ h7, mapGet_mapSet_ne _ _ h6,
      mapGet_mapSet_ne _ _ h5]
    exact mapGet_applyEarlyStages_ne api data k h1 h2 h3 h8
  · exact mapGet_applyEarlyStages_ne api data k h1 h2 h3 h8

theorem mapGet_applyDataStages_primary (exts : Externals) (api : API)
    (eps : List APIMEndpoint) (pProdID pSandID pProdURL pSandURL : String)
    (data : List (String × YVal)) (hcond : pProdID ≠ "" ∨ pSandID ≠ "") :
    mapGet (applyDataStages exts api eps pProdID pSandID pProdURL pSandURL data)
        "primaryProductionEndpointId" = some (.s pProdID) ∧
    mapGet (applyDataStages exts api eps pProdID pSandID pProdURL pSandURL data)
        "primarySandboxEndpointId" = some (.s pSandID) ∧
    mapGet (applyDataStages exts api eps pProdID pSandID pProdURL pSandURL data)
        "endpointImplementationType" = some (.s "ENDPOINT") ∧
    mapGet (applyDataStages exts api eps pProdID pSandID pProdURL pSandURL data)
        "endpointConfig" = some (.obj (primaryEndpointConfigFields api pSandURL pProdURL)) := by
  unfold applyDataStages
  refine ⟨?_, ?_, ?_, ?_⟩
  · rw [mapGet_mapSet_ne _ _ (by decide), if_pos hcond, mapGet_mapSet_ne _ _ (by decide),
      mapGet_mapSet_ne _ _ (by decide), mapGet_mapSet_ne _ _ (by decide), mapGet_mapSet_self]
  · rw [mapGet_mapSet_ne _ _ (by decide), if_pos hcond, mapGet_mapSet_ne _ _ (by decide),
      mapGet_mapSet_ne _ _ (by decide), mapGet_mapSet_self]
  · rw [mapGet_mapSet_ne _ _ (by decide), if_pos hcond, mapGet_mapSet_ne _ _ (by decide),
      mapGet_mapSet_self]
  · rw [mapGet_mapSet_ne _ _ (by decide), if_pos hcond, mapGet_mapSet_self]

theorem mapGet_applyDataStages_noprimary (exts : Externals) (api : API)
    (eps : List APIMEndpoint) (pProdID pSandID pProdURL pSandURL : String)
    (data : List (String × YVal)) (hp : pProdID = "") (hs : pSandID = "")
    (k : String) (h4 : k ≠ "apiPolicies") :
    mapGet (applyDataStages exts api eps pProdID pSandID pProdURL pSandURL data) k =
      mapGet (applyEarlyStages api data) k := by
  unfold applyDataStages
  rw [mapGet_mapSet_ne _ _ h4, if_neg (by simp [hp, hs])]

/-- The conditional sandbox-endpoints key deletion (rest_server.go:378-381). -/
def removeSandKey (api : API) (v : YVal) : YVal :=
  if api.sandEndpoint = "" then
    match v with
    | .obj fields => YVal.obj (mapRemove fields "sandbox_endpoints")
    | other => other
  else v

/-- The conditional production-endpoints key deletion (rest_server.go:382-385). -/
def removeProdKey (api : API) (v : YVal) : YVal :=
  if api.prodEndpoint = "" then
    match v with
    | .obj fields => YVal.obj (mapRemove fields "production_endpoints")
    | other => other
  else v

theorem mapGet_applyEarlyStages_endpointConfig (api : API) (data : List (String × YVal))
    (v : YVal) (hv : mapGet data "endpointConfig" = some v) :
    mapGet (applyEarlyStages api data) "endpointConfig" =
      some (removeProdKey api (removeSandKey api v)) := by
  unfold applyEarlyStages
  rw [mapGet_stage_set (by decide : ("endpointConfig" : String) ≠ "maxTps")]
  have htail :
      mapGet (if api.prodEndpoint = "" then
          mapModify (if api.sandEndpoint = "" then
              mapModify (if subTypeCond api then
                  mapSet data "subtypeConfiguration" (.obj (subTypeConfigurationFields api))
                else data) "endpointConfig" (fun v =>
                match v with
                | .obj fields => YVal.obj (mapRemove fields "sandbox_endpoints")
                | other => other)
            else (if subTypeCond api then
                mapSet data "subtypeConfiguration" (.obj (subTypeConfigurationFields api))
              else data)) "endpointConfig" (fun v =>
            match v with
            | .obj fields => YVal.obj (mapRemove fields "production_endpoints")
            | other => other)
        else (if api.sandEndpoint = "" then
            mapModify (if subTypeCond api then
                mapSet data "subtypeConfiguration" (.obj (subTypeConfigurationFields api))
              else data) "endpointConfig" (fun v =>
              match v with
              | .obj fields => YVal.obj (mapRemove fields "sandbox_endpoints")
              | other => other)
          else (if subTypeCond api then
              mapSet data "subtypeConfiguration" (.obj (subTypeConfigurationFields api))
            else data))) "endpointConfig" =
      some (removeProdKey api (removeSandKey api v)) := by
    rw [mapGet_stage_modify_self, mapGet_stage_modify_self,
      mapGet_stage_set (by decide : ("endpointConfig" : String) ≠ "subtypeConfiguration"), hv]
    rfl
  cases hc : api.corsPolicy with
  | none => exact htail
  | some cors =>
    rw [mapGet_mapSet_ne _ _ (by decide : ("endpointConfig" : String) ≠ "corsConfiguration")]
    exact htail

theorem mapGet_apiDataCore_context (provider context apiType : String) (api : API)
    (operations : List APIOperation) (scopes : List ScopeWrapper)
    (a b c d : String) :
    mapGet (apiDataCore provider context apiType api operations scopes a b c d)
      "context" = some (.s context) := rfl

theorem mapGet_apiDataCore_implType (provider context apiType : String) (api : API)
    (operations : List APIOperation) (scopes : List ScopeWrapper)
    (a b c d : String) :
    mapGet (apiDataCore provider context apiType api operations scopes a b c d)
      "endpointImplementationType" = none := rfl

theorem mapGet_apiDataCore_endpointConfig (provider context apiType : String) (api : API)
    (operations : List APIOperation) (scopes : List ScopeWrapper)
    (a b c d : String) :
    mapGet (apiDataCore provider context apiType api operations scopes a b c d)
      "endpointConfig" = some (.obj (endpointConfigFields api a b c d)) := rfl

theorem string_append_ne_empty (x : String) (suf : String) (h : 0 < suf.length) :
    x ++ suf ≠ "" := by
  intro he
  have hlen := congrArg String.length he
  rw [String.length_append] at hlen
  have : String.length "" = 0 := rfl
  omega

/-- Fixture: external collaborators whose parsers fail (degraded content)
and whose regex matcher accepts everything. -/
def extsW : Externals :=
  { parsePaths := fun _ => none, matchRegex := fun _ _ => true,
    parseYamlMap := fun _ => none, serializeYaml := fun _ => "",
    jsonWrr := fun _ _ _ => "", jsonToYaml := fun _ => none }

/-- Fixture: identifier supply of one run. -/
def genW : Nat → String := fun n => "u" ++ toString n

/-- Fixture: identifier supply of a first run. -/
def genA : Nat → String := fun _ => "a"

/-- Fixture: identifier supply of a second run. -/
def genB : Nat → String := fun _ => "b"

/-- C9: the synthesized context equals the base path with the
`"/" + version` suffix removed when the base path ends with the version
(e.g. `/pets/1.0` with version `1.0` gives `/pets`), and equals the base
path unchanged otherwise. -/
theorem c9_context_strips_version_suffix :
    (∀ (cfg : Option AgentConfig) (exts : Externals) (gen : Nat → String)
       (event : APICPEvent),
       lookupData (createAPIYaml cfg exts gen event).apiDoc "context" =
         some (.s (removeVersionSuffix event.api.basePath event.api.apiVersion))) ∧
    removeVersionSuffix "/pets/1.0" "1.0" = "/pets" ∧
    (∀ b v : String, goHasSuffix b v = false → removeVersionSuffix b v = b) := by
  refine ⟨?_, by decide, ?_⟩
  · intro cfg exts gen event
    rw [lookupData_createAPIYaml]
    simp only [apiDataOf]
    rw [mapGet_applyDataStages_ne _ _ _ _ _ _ _ _ _ (by decide) (by decide) (by decide)
      (by decide) (by decide) (by decide) (by decide) (by decide)]
    exact mapGet_apiDataCore_context _ _ _ _ _ _ _ _ _ _
  · intro b v h
    unfold removeVersionSuffix
    rw [if_neg (by simp [h])]

/-- Witness for `c9_context_strips_version_suffix` at a base path that does
not end with the version. -/
theorem c9_context_strips_version_suffix_witness :
    removeVersionSuffix "/pets/2.0" "1.0" = "/pets/2.0" :=
  c9_context_strips_version_suffix.2.2 "/pets/2.0" "1.0" (by decide)

/-- C2: the primary production (resp. sandbox) endpoint identifier recorded
in the synthesized api document equals the identifier of the first
production (resp. sandbox) descriptor in declaration order, and a non-empty
endpoints document is emitted iff more than one production or more than one
sandbox descriptor exists. -/
theorem c2_primary_identifiers_and_endpoints_doc (cfg : Option AgentConfig)
    (exts : Externals) (gen : Nat → String) (event : APICPEvent) :
    (∀ d ds, prodDescriptors gen event = d :: ds →
       lookupData (createAPIYaml cfg exts gen event).apiDoc "primaryProductionEndpointId" =
         some (.s d.endpointUUID)) ∧
    (∀ d ds, sandDescriptors gen event = d :: ds →
       lookupData (createAPIYaml cfg exts gen event).apiDoc "primarySandboxEndpointId" =
         some (.s d.endpointUUID)) ∧
    ((createAPIYaml cfg exts gen event).endpointsDoc.isSome ↔
       event.api.multiEndpoints.prodEndpoints.length > 1 ∨
       event.api.multiEndpoints.sandEndpoints.length > 1) := by
  refine ⟨?_, ?_, ?_⟩
  · intro d ds hd
    rw [lookupData_createAPIYaml]
    simp only [apiDataOf]
    cases hpe : event.api.multiEndpoints.prodEndpoints with
    | nil =>
      rw [prodDescriptors, hpe] at hd
      simp [mkProdEndpoints] at hd
    | cons e es =>
      have hcond : primaryProductionEndpointID gen (e :: es) ≠ ""
          ∨ primarySandboxEndpointID gen (e :: es)
              event.api.multiEndpoints.sandEndpoints ≠ "" := by
        left
        simp only [primaryProductionEndpointID]
        exact string_append_ne_empty _ _ (by decide)
      rw [(mapGet_applyDataStages_primary _ _ _ _ _ _ _ _ hcond).1]
      rw [prodDescriptors, hpe] at hd
      simp only [mkProdEndpoints] at hd
      rw [List.cons.injEq] at hd
      rw [← hd.1]
      rfl
  · intro d ds hd
    rw [lookupData_createAPIYaml]
    simp only [apiDataOf]
    cases hse : event.api.multiEndpoints.sandEndpoints with
    | nil =>
      rw [sandDescriptors, hse] at hd
      simp [mkSandEndpoints] at hd
    | cons e es =>
      have hcond : primaryProductionEndpointID gen event.api.multiEndpoints.prodEndpoints ≠ ""
          ∨ primarySandboxEndpointID gen event.api.multiEndpoints.prodEndpoints
              (e :: es) ≠ "" := by
        right
        simp only [primarySandboxEndpointID]
        exact string_append_ne_empty _ _ (by decide)
      rw [(mapGet_applyDataStages_primary _ _ _ _ _ _ _ _ hcond).2.1]
      rw [sandDescriptors, hse] at hd
      simp only [mkSandEndpoints] at hd
      rw [List.cons.injEq] at hd
      rw [← hd.1]
      rfl
  · show (endpointsDocOf gen event).isSome ↔ _
    unfold endpointsDocOf
    split
    · rename_i hcond
      simpa using hcond
    · rename_i hcond
      simpa using hcond

/-- Fixture: a two-descriptor production multi-endpoint configuration. -/
def meTwoProd : MultiEndpoints :=
  { protocol := "https",
    prodEndpoints := [{ url := "p1.example.com" }, { url := "p2.example.com" }],
    sandEndpoints := [] }

/-- Fixture: event with two production multi-endpoint descriptors. -/
def eventC2w : APICPEvent :=
  { event := .createEvent,
    api := { apiType := "REST", multiEndpoints := meTwoProd } }

/-- Witness for `c2_primary_identifiers_and_endpoints_doc` at a concrete
two-endpoint event. -/
theorem c2_primary_identifiers_and_endpoints_doc_witness :
    lookupData (createAPIYaml none extsW genW eventC2w).apiDoc "primaryProductionEndpointId" =
      some (.s "u0--PRODUCTION") :=
  (c2_primary_identifiers_and_endpoints_doc none extsW genW eventC2w).1
    ((prodDescriptors genW eventC2w).headD {})
    ((prodDescriptors genW eventC2w).tail) rfl

/-- Fixture: a single-descriptor production multi-endpoint configuration. -/
def meOneProd : MultiEndpoints :=
  { protocol := "https",
    prodEndpoints := [{ url := "one.example.com" }],
    sandEndpoints := [] }

/-- Fixture: event with exactly one production multi-endpoint descriptor. -/
def eventC5 : APICPEvent :=
  { event := .createEvent,
    api := { apiType := "REST", multiEndpoints := meOneProd } }

/-- C5 counterexample: with exactly one production descriptor and no sandbox
descriptor (so not "more than one endpoint per stage"), the source still
replaces the inline endpoint configuration and writes the `ENDPOINT`
implementation-type marker — the replacement triggers on any non-empty
multi-endpoint configuration, not only on more than one per stage. -/
theorem c5_counterexample :
    ¬ (eventC5.api.multiEndpoints.prodEndpoints.length > 1 ∨
       eventC5.api.multiEndpoints.sandEndpoints.length > 1) ∧
    lookupData (createAPIYaml none extsW genW eventC5).apiDoc "endpointImplementationType" =
      some (.s "ENDPOINT") := by
  constructor
  · decide
  · rfl

/-- C5 amended: the primary-endpoint identifiers and the `ENDPOINT`
implementation-type marker replace the inline endpoint configuration exactly
when at least one multi-endpoint descriptor exists in either stage;
otherwise the inline endpoint configuration built from the single-endpoint
fields (with empty-URL stage keys deleted) is kept. -/
theorem c5_amended_replacement_condition (cfg : Option AgentConfig) (exts : Externals)
    (gen : Nat → String) (event : APICPEvent) :
    ((event.api.multiEndpoints.prodEndpoints ≠ [] ∨
        event.api.multiEndpoints.sandEndpoints ≠ []) →
       lookupData (createAPIYaml cfg exts gen event).apiDoc "endpointImplementationType" =
           some (.s "ENDPOINT") ∧
       lookupData (createAPIYaml cfg exts gen event).apiDoc "endpointConfig" =
           some (.obj (primaryEndpointConfigFields event.api
             (primarySandboxURL event.api.multiEndpoints.protocol
               event.api.multiEndpoints.sandEndpoints)
             (primaryProductionURL event.api.multiEndpoints.protocol
               event.api.multiEndpoints.prodEndpoints)))) ∧
    (event.api.multiEndpoints.prodEndpoints = [] →
     event.api.multiEndpoints.sandEndpoints = [] →
       lookupData (createAPIYaml cfg exts gen event).apiDoc "endpointImplementationType" =
           none ∧
       lookupData (createAPIYaml cfg exts gen event).apiDoc "endpointConfig" =
           some (removeProdKey event.api (removeSandKey event.api
             (.obj (endpointConfigFields event.api (synthSandEndpointURL event.api)
               (synthProdEndpointURL event.api) (synthSandSecTypeOf event.api)
               (synthProdSecTypeOf event.api)))))) := by
  constructor
  · intro hne
    have hcond : primaryProductionEndpointID gen event.api.multiEndpoints.prodEndpoints ≠ ""
        ∨ primarySandboxEndpointID gen event.api.multiEndpoints.prodEndpoints
            event.api.multiEndpoints.sandEndpoints ≠ "" := by
      cases hne with
      | inl hp =>
        left
        cases hpe : event.api.multiEndpoints.prodEndpoints with
        | nil => exact absurd hpe hp
        | cons e es =>
          simp only [primaryProductionEndpointID]
          exact string_append_ne_empty _ _ (by decide)
      | inr hs =>
        right
        cases hse : event.api.multiEndpoints.sandEndpoints with
        | nil => exact absurd hse hs
        | cons e es =>
          simp only [primarySandboxEndpointID]
          exact string_append_ne_empty _ _ (by decide)
    constructor
    · rw [lookupData_createAPIYaml]
      simp only [apiDataOf]
      rw [(mapGet_applyDataStages_primary _ _ _ _ _ _ _ _ hcond).2.2.1]
    · rw [lookupData_createAPIYaml]
      simp only [apiDataOf]
      rw [(mapGet_applyDataStages_primary _ _ _ _ _ _ _ _ hcond).2.2.2]
  · intro hp hs
    have hpid : primaryProductionEndpointID gen event.api.multiEndpoints.prodEndpoints = "" := by
      rw [hp]
      rfl
    have hsid : primarySandboxEndpointID gen event.api.multiEndpoints.prodEndpoints
        event.api.multiEndpoints.sandEndpoints = "" := by
      rw [hs]
      rfl
    constructor
    · rw [lookupData_createAPIYaml]
      simp only [apiDataOf]
      rw [mapGet_applyDataStages_noprimary _ _ _ _ _ _ _ _ hpid hsid _ (by decide)]
      rw [mapGet_applyEarlyStages_ne _ _ _ (by decide) (by decide) (by decide) (by decide)]
      exact mapGet_apiDataCore_implType _ _ _ _ _ _ _ _ _ _
    · rw [lookupData_createAPIYaml]
      simp only [apiDataOf]
      rw [mapGet_applyDataStages_noprimary _ _ _ _ _ _ _ _ hpid hsid _ (by decide)]
      exact mapGet_applyEarlyStages_endpointConfig _ _ _
        (mapGet_apiDataCore_endpointConfig _ _ _ _ _ _ _ _ _ _)

/-- Fixture: plain event without any multi-endpoint descriptors. -/
def eventPlain : APICPEvent :=
  { event := .createEvent,
    api := { apiType := "REST", basePath := "/pets/1.0", apiVersion := "1.0" } }

/-- Witness for `c5_amended_replacement_condition` at an event without
multi-endpoint descriptors. -/
theorem c5_amended_replacement_condition_witness :
    lookupData (createAPIYaml none extsW genW eventPlain).apiDoc "endpointImplementationType" =
      none :=
  ((c5_amended_replacement_condition none extsW genW eventPlain).2 rfl rfl).1

/-- Fixture: event with one production multi-endpoint descriptor, used to
compare two synthesis runs. -/
def eventC1 : APICPEvent :=
  { event := .createEvent,
    api := { apiType := "REST", multiEndpoints := meOneProd } }

/-- C1 counterexample: two executions of the synthesis step on the same
input event and configuration draw fresh endpoint identifiers from
`uuid.New()` (modelled by the identifier supplies `genA` and `genB`), and
the generated identifiers are embedded in the api document, so the outputs
differ — and not merely in scope-set ordering. -/
theorem c1_counterexample :
    synthesize none extsW genA eventC1 ≠ synthesize none extsW genB eventC1 := by
  intro h
  have h2 : (some (YVal.s "a--PRODUCTION") : Option YVal) = some (YVal.s "b--PRODUCTION") := by
    calc (some (YVal.s "a--PRODUCTION") : Option YVal)
        = lookupData (synthesize none extsW genA eventC1).apiDoc
            "primaryProductionEndpointId" := rfl
      _ = lookupData (synthesize none extsW genB eventC1).apiDoc
            "primaryProductionEndpointId" := by rw [h]
      _ = some (YVal.s "b--PRODUCTION") := rfl
  have h3 := Option.some.inj h2
  simp at h3

/-- Fixture: a declared REST operation on verb `get` matching any path
(under the lenient `matchRegex` of the fixtures). -/
def opAnyGet : OperationFromDP :=
  { path := "/x", verb := "get", scopes := [], filters := [],
    aiModelBasedRoundRobin := none }

/-- Fixture: a REST event whose schema has two paths, each carrying a `get`
operation. -/
def eventTwoPaths : APICPEvent :=
  { event := .createEvent,
    api := { apiType := "REST", definition := "d", operations := [opAnyGet] } }

/-- Fixture: externals whose parser reports the two schema paths in the
order `/a`, `/b` — one draw of Go's randomized map iteration. -/
def extsPathsAB : Externals :=
  { parsePaths := fun _ => some [("/a", ["get"]), ("/b", ["get"])],
    matchRegex := fun _ _ => true,
    parseYamlMap := fun _ => none, serializeYaml := fun _ => "",
    jsonWrr := fun _ _ _ => "", jsonToYaml := fun _ => none }

/-- Fixture: the same externals with the opposite path iteration order. -/
def extsPathsBA : Externals :=
  { parsePaths := fun _ => some [("/b", ["get"]), ("/a", ["get"])],
    matchRegex := fun _ _ => true,
    parseYamlMap := fun _ => none, serializeYaml := fun _ => "",
    jsonWrr := fun _ _ _ => "", jsonToYaml := fun _ => none }

/-- Fixture: an event whose property map is iterated in the order
`a`, `b`. -/
def eventPropsAB : APICPEvent :=
  { event := .createEvent,
    api := { apiType := "REST", apiProperties := [("a", "1"), ("b", "2")] } }

/-- Fixture: the same event with the opposite property iteration order. -/
def eventPropsBA : APICPEvent :=
  { event := .createEvent,
    api := { apiType := "REST", apiProperties := [("b", "2"), ("a", "1")] } }

/-- The target of the first entry of the api document's `operations`
array. -/
def firstOperationTarget (o : SynthOutput) : Option String :=
  match lookupData o.apiDoc "operations" with
  | some (.arr (.obj fields :: _)) =>
    match mapGet fields "target" with
    | some (.s t) => some t
    | _ => none
  | _ => none

/-- The name of the first entry of the api document's
`additionalProperties` array. -/
def firstAdditionalPropertyName (o : SynthOutput) : Option String :=
  match lookupData o.apiDoc "additionalProperties" with
  | some (.arr (.obj fields :: _)) =>
    match mapGet fields "name" with
    | some (.s n) => some n
    | _ => none
  | _ => none

/-- C1 amended: the synthesis step is deterministic only once its two
nondeterministic inputs are held fixed.  (a) With the map-iteration orders
fixed — the parsed path order and the property order are inputs of the
model, the scope-wrapper order is fixed to insertion order — and no
multi-endpoint descriptors present, no identifier is drawn and two runs
with different identifier supplies produce identical output documents.
(b, c) The iteration orders genuinely matter: permuting the parsed path
order (rest_server.go:885) reorders the `operations` array, and permuting
the property order (rest_server.go:1060) reorders the
`additionalProperties` array, so two real runs differ even without
multi-endpoint descriptors — the original idempotence claim fails for
these arrays (and for the scope array, which the original claim itself
carved out) independently of the uuid draws shown by the
counterexample. -/
theorem c1_amended_determinism_boundary :
    (∀ (cfg : Option AgentConfig) (exts : Externals) (gen1 gen2 : Nat → String)
        (event : APICPEvent),
        event.api.multiEndpoints.prodEndpoints = [] →
        event.api.multiEndpoints.sandEndpoints = [] →
        synthesize cfg exts gen1 event = synthesize cfg exts gen2 event) ∧
    synthesize none extsPathsAB genW eventTwoPaths ≠
      synthesize none extsPathsBA genW eventTwoPaths ∧
    synthesize none extsW genW eventPropsAB ≠
      synthesize none extsW genW eventPropsBA := by
  refine ⟨?_, ?_, ?_⟩
  · intro cfg exts gen1 gen2 event hp hs
    have hres : ∀ g : Nat → String, resolvedEndpoints g event = [] := by
      intro g
      unfold resolvedEndpoints prodDescriptors sandDescriptors
      rw [hp, hs]
      rfl
    have hops : synthOperations exts gen1 event = synthOperations exts gen2 event := by
      unfold synthOperations
      rw [hres gen1, hres gen2]
    have hscopes : synthScopes exts gen1 event = synthScopes exts gen2 event := by
      unfold synthScopes
      rw [hres gen1, hres gen2]
    have hdata : apiDataOf cfg exts gen1 event = apiDataOf cfg exts gen2 event := by
      simp only [apiDataOf]
      rw [hres gen1, hres gen2, hops, hscopes, hp, hs]
      rfl
    have hendp : endpointsDocOf gen1 event = endpointsDocOf gen2 event := by
      simp only [endpointsDocOf]
      rw [hres gen1, hres gen2]
    simp only [synthesize, createAPIYaml]
    rw [hops, hscopes, hdata, hendp]
  · intro h
    have h2 : (some "/a" : Option String) = some "/b" := by
      calc (some "/a" : Option String)
          = firstOperationTarget (synthesize none extsPathsAB genW eventTwoPaths) := rfl
        _ = firstOperationTarget (synthesize none extsPathsBA genW eventTwoPaths) := by
            rw [h]
        _ = some "/b" := rfl
    have h3 := Option.some.inj h2
    simp at h3
  · intro h
    have h2 : (some "a" : Option String) = some "b" := by
      calc (some "a" : Option String)
          = firstAdditionalPropertyName (synthesize none extsW genW eventPropsAB) := rfl
        _ = firstAdditionalPropertyName (synthesize none extsW genW eventPropsBA) := by
            rw [h]
        _ = some "b" := rfl
    have h3 := Option.some.inj h2
    simp at h3

/-- Witness for `c1_amended_determinism_boundary` at a concrete event
without multi-endpoint descriptors and two distinct identifier supplies. -/
theorem c1_amended_determinism_boundary_witness :
    synthesize none extsW genA eventPlain = synthesize none extsW genB eventPlain :=
  c1_amended_determinism_boundary.1 none extsW genA genB eventPlain rfl rfl

/-! ## Event Ingestion Endpoint (`POST /apis`, rest_server.go:61-153) -/

/-- The undeploy payload entry (rest_server.go:70-77). -/
structure DeletePayload where
  revisionUuid : String
  name : String
  vhost : String
  displayOnDevportal : Bool
deriving DecidableEq

/-- One invocation of the import client's undeploy-revision operation. -/
structure DeleteCall where
  apiId : String
  revisionId : String
  payload : DeletePayload
deriving DecidableEq

/-- The handler's outcome for one request. -/
inductive HandlerResponse where
  | ok (body : List (String × String))
  | serviceUnavailable (body : String)
deriving DecidableEq

/-- The HTTP status code of a handler outcome. -/
def HandlerResponse.statusCode : HandlerResponse → Nat
  | .ok _ => 200
  | .serviceUnavailable _ => 503

/-- The first configured environment label (rest_server.go:40-45,73); the
source indexes `envLabel[0]` of a list that always carries at least one
label. -/
def envLabel0Of (cfg : Option AgentConfig) : String :=
  (match cfg with
    | some c => c.environmentLabels
    | none => ["Default"]).headD ""

/-- The undeploy payload of a delete event (rest_server.go:70-77). -/
def deletePayloadOf (envLabel0 : String) (api : API) : DeletePayload :=
  { revisionUuid := api.revisionID, name := envLabel0,
    vhost := api.vhost, displayOnDevportal := true }

/-- The undeploy call of a delete event. -/
def deleteCallOf (envLabel0 : String) (api : API) : DeleteCall :=
  { apiId := api.apiUUID, revisionId := api.revisionID,
    payload := deletePayloadOf envLabel0 api }

/-- The delete branch of the `POST /apis` handler (rest_server.go:68-92):
invokes the undeploy operation and reports 503 with the error text, or 200
with a success message.  The abstract client returns `some` error text or
`none` for success. -/
def postApisDelete (envLabel0 : String)
    (deleteAPIRevision : String → String → DeletePayload → Option String)
    (api : API) : DeleteCall × HandlerResponse :=
  let jsonPayload := deletePayloadOf envLabel0 api
  match deleteAPIRevision api.apiUUID api.revisionID jsonPayload with
  | some errorUndeployRevision =>
    (⟨api.apiUUID, api.revisionID, jsonPayload⟩, .serviceUnavailable errorUndeployRevision)
  | none => (⟨api.apiUUID, api.revisionID, jsonPayload⟩, .ok [("message", "Success")])

/-- Modelled from the spec: `utils.OpenAPIDefaultYaml`, the fallback OpenAPI
definition used when a REST event carries none; the constant lives outside
the excerpt and only its identity matters. -/
def openAPIDefaultYaml : String := "openapi: 3.0.0"

/-- One named file handed to the archive packer. -/
structure ZipFileEntry where
  path : String
  content : String
deriving DecidableEq

/-- The `POST /apis` handler (rest_server.go:61-153) over abstract
collaborators: the document serializer, the undeploy client, and the import
client; the first component records the undeploy invocation when one
happens.  The create branch defaults and converts the definition, runs the
synthesis, packs three or four files depending on the endpoints document,
and reports the import result. -/
def postApis (cfg : Option AgentConfig) (exts : Externals) (gen : Nat → String)
    (serializeDoc : YVal → String)
    (deleteAPIRevision : String → String → DeletePayload → Option String)
    (importAPI : String → List ZipFileEntry → Except String (String × String))
    (event : APICPEvent) : Option DeleteCall × HandlerResponse :=
  match event.event with
  | .deleteEvent =>
    let dres := postApisDelete (envLabel0Of cfg) deleteAPIRevision event.api
    (some dres.1, dres.2)
  | .createEvent =>
    let api0 := event.api
    let api1 := if eqFold api0.apiType "rest" && api0.definition == "" then
        { api0 with definition := openAPIDefaultYaml }
      else api0
    let api2 := if eqFold api1.apiType "rest" then
        match exts.jsonToYaml api1.definition with
        | some y => { api1 with definition := y }
        | none => api1
      else api1
    let event2 : APICPEvent := { event := event.event, api := api2 }
    let bundle := createAPIYaml cfg exts gen event2
    let deploymentContent := serializeDoc (createDeployementYaml cfg api2.vhost)
    let base := api2.apiName ++ "-" ++ api2.apiVersion
    let definitionPath := if goToUpper api2.apiType = "GRAPHQL" then
        base ++ "/Definitions/schema.graphql"
      else base ++ "/Definitions/swagger.yaml"
    let apiYaml := serializeDoc bundle.apiDoc
    let endpointsYaml := match bundle.endpointsDoc with
      | some d => serializeDoc d
      | none => "\x7b\x7d\n"
    let zipFiles := if endpointsYaml ≠ "\x7b\x7d\n" then
        [⟨base ++ "/api.yaml", apiYaml⟩,
         ⟨base ++ "/endpoints.yaml", endpointsYaml⟩,
         ⟨base ++ "/deployment_environments.yaml", deploymentContent⟩,
         ⟨definitionPath, bundle.definition⟩]
      else
        [⟨base ++ "/api.yaml", apiYaml⟩,
         ⟨base ++ "/deployment_environments.yaml", deploymentContent⟩,
         ⟨definitionPath, bundle.definition⟩]
    match importAPI ("admin-" ++ base ++ ".zip") zipFiles with
    | .error e => (none, .serviceUnavailable e)
    | .ok ids => (none, .ok [("id", ids.1), ("revisionID", ids.2)])

theorem postApisDelete_spec (envLabel0 : String)
    (deleteAPIRevision : String → String → DeletePayload → Option String) (api : API) :
    (postApisDelete envLabel0 deleteAPIRevision api).1 = deleteCallOf envLabel0 api ∧
    (∀ e, deleteAPIRevision api.apiUUID api.revisionID (deletePayloadOf envLabel0 api) =
        some e →
      (postApisDelete envLabel0 deleteAPIRevision api).2 = .serviceUnavailable e) ∧
    (deleteAPIRevision api.apiUUID api.revisionID (deletePayloadOf envLabel0 api) = none →
      (postApisDelete envLabel0 deleteAPIRevision api).2 = .ok [("message", "Success")]) := by
  simp only [postApisDelete]
  cases hdel : deleteAPIRevision api.apiUUID api.revisionID (deletePayloadOf envLabel0 api) with
  | some err =>
    refine ⟨rfl, ?_, ?_⟩
    · intro e he
      cases he
      rfl
    · intro hnone
      cases hnone
  | none =>
    refine ⟨rfl, ?_, ?_⟩
    · intro e he
      cases he
    · intro _
      rfl

/-- C6: for every delete event, the import client's undeploy-revision
operation is invoked with the event's artifact id and revision id and a
payload carrying that revision id, the event's vhost, the configured
environment label, and `displayOnDevportal` true; a client error yields
HTTP 503 with the error text as body, success yields HTTP 200 with
`message: Success`. -/
theorem c6_delete_undeploy_contract (cfg : Option AgentConfig) (exts : Externals)
    (gen : Nat → String) (serializeDoc : YVal → String)
    (deleteAPIRevision : String → String → DeletePayload → Option String)
    (importAPI : String → List ZipFileEntry → Except String (String × String))
    (event : APICPEvent) (h : event.event = .deleteEvent) :
    (postApis cfg exts gen serializeDoc deleteAPIRevision importAPI event).1 =
      some (deleteCallOf (envLabel0Of cfg) event.api) ∧
    (∀ e, deleteAPIRevision event.api.apiUUID event.api.revisionID
        (deletePayloadOf (envLabel0Of cfg) event.api) = some e →
      (postApis cfg exts gen serializeDoc deleteAPIRevision importAPI event).2 =
          .serviceUnavailable e ∧
      (postApis cfg exts gen serializeDoc deleteAPIRevision importAPI event).2.statusCode =
          503) ∧
    (deleteAPIRevision event.api.apiUUID event.api.revisionID
        (deletePayloadOf (envLabel0Of cfg) event.api) = none →
      (postApis cfg exts gen serializeDoc deleteAPIRevision importAPI event).2 =
          .ok [("message", "Success")] ∧
      (postApis cfg exts gen serializeDoc deleteAPIRevision importAPI event).2.statusCode =
          200) := by
  have hspec := postApisDelete_spec (envLabel0Of cfg) deleteAPIRevision event.api
  have hbranch : postApis cfg exts gen serializeDoc deleteAPIRevision importAPI event =
      (some (postApisDelete (envLabel0Of cfg) deleteAPIRevision event.api).1,
       (postApisDelete (envLabel0Of cfg) deleteAPIRevision event.api).2) := by
    simp only [postApis, h]
  refine ⟨?_, ?_, ?_⟩
  · rw [hbranch]
    rw [hspec.1]
  · intro e he
    constructor
    · rw [hbranch]
      exact hspec.2.1 e he
    · rw [hbranch]
      rw [hspec.2.1 e he]
      rfl
  · intro hnone
    constructor
    · rw [hbranch]
      exact hspec.2.2 hnone
    · rw [hbranch]
      rw [hspec.2.2 hnone]
      rfl

/-- Fixture: a delete event. -/
def eventDel : APICPEvent :=
  { event := .deleteEvent,
    api := { apiUUID := "X", revisionID := "2", vhost := "foo" } }

/-- Witness for `c6_delete_undeploy_contract` at a concrete delete event
whose client succeeds. -/
theorem c6_delete_undeploy_contract_witness :
    (postApis none extsW genW (fun _ => "") (fun _ _ _ => none)
        (fun _ _ => .error "down") eventDel).2 = .ok [("message", "Success")] :=
  ((c6_delete_undeploy_contract none extsW genW (fun _ => "") (fun _ _ _ => none)
      (fun _ _ => .error "down") eventDel rfl).2.2 rfl).1

end Agent
